import Mathlib

/-!
Shallow embedding of the SVIST attendance application (`src/app.py`) and
verification of the specification's claims about it.

Conventions of the embedding:
* SQLAlchemy tables become Lean lists of records, in insertion order; a
  `query.filter_by(...).first()` becomes `List.find?`, `.all()` becomes
  `List.filter`, a new row is appended at the end of the list.
* Python `datetime.date` becomes the `Date` structure (year, month, day)
  with chronological (lexicographic) comparison; `datetime` timestamps that
  are only stored and compared become plain `Nat` counters.
* Python float percentages become exact rationals `ℚ` (the standard
  idealisation of IEEE arithmetic for this kind of bookkeeping code).
* `datetime.now()` / `datetime.utcnow()` become explicit `today`/`now`
  parameters threaded into each operation.
-/

/-- Calendar date, as Python `datetime.date` (year, month, day). -/
structure Date where
  year : Nat
  month : Nat
  day : Nat
deriving DecidableEq, Repr

/-- Chronological comparison of dates, as Python `date <= date`
(lexicographic on (year, month, day)). -/
def Date.le (a b : Date) : Bool :=
  a.year < b.year ||
    (a.year == b.year &&
      (a.month < b.month || (a.month == b.month && a.day ≤ b.day)))

/-- Gregorian leap-year test, as `calendar.isleap` / CPython's `datetime`. -/
def Date.isLeap (y : Nat) : Bool :=
  y % 4 == 0 && (y % 100 != 0 || y % 400 == 0)

/-- Days in the months strictly before month `m` of a year
(`leap` true in a leap year). -/
def daysBeforeMonth (m : Nat) (leap : Bool) : Nat :=
  (match m with
   | 1 => 0 | 2 => 31 | 3 => 59 | 4 => 90 | 5 => 120 | 6 => 151
   | 7 => 181 | 8 => 212 | 9 => 243 | 10 => 273 | 11 => 304 | _ => 334) +
  (if leap && 2 < m then 1 else 0)

/-- Proleptic-Gregorian ordinal of a date, as CPython `date.toordinal`
(0001-01-01 has ordinal 1). -/
def Date.toOrdinal (d : Date) : Nat :=
  365 * (d.year - 1) + (d.year - 1) / 4 + (d.year - 1) / 400 +
    daysBeforeMonth d.month (Date.isLeap d.year) + d.day - (d.year - 1) / 100

/-- Weekday of a date, as CPython `date.weekday()` (Monday = 0 … Sunday = 6). -/
def Date.weekday (d : Date) : Nat :=
  (d.toOrdinal - 1) % 7

/-- English month name, as `strftime('%B')`. -/
def monthName : Nat → String
  | 1 => "January" | 2 => "February" | 3 => "March" | 4 => "April"
  | 5 => "May" | 6 => "June" | 7 => "July" | 8 => "August"
  | 9 => "September" | 10 => "October" | 11 => "November" | 12 => "December"
  | _ => ""

/-- Month label of a date, as `strftime('%B %Y')`. -/
def monthLabel (d : Date) : String :=
  monthName d.month ++ " " ++ toString d.year

/-- Grouping key of a date's calendar month, as `strftime('%Y-%m')`. -/
def monthKey (d : Date) : Nat × Nat :=
  (d.year, d.month)

/-- Row of the `attendance` table (model `Attendance` in `app.py`). -/
structure Attendance where
  student_id : Nat
  date : Date
  period : Nat
  status : String
  marked_by : Nat
  marked_at : Nat
  subject : Option String
  semester_at_time : Nat
  attendance_type : String
deriving DecidableEq, Repr

/-- Row of the `students` table (model `Student` in `app.py`).
The SQL column `section` is rendered `sectionName` because `section` is a
Lean keyword. -/
structure Student where
  id : Nat
  user_id : Nat
  name : String
  register_number : String
  branch : String
  current_semester : Nat
  sectionName : String
  phone : String
  semester_start_date : Date
  is_semester_active : Bool
deriving DecidableEq, Repr

/-- Row of the `teachers` table (model `Teacher` in `app.py`). -/
structure Teacher where
  id : Nat
  user_id : Nat
  name : String
  branch : String
  employee_id : String
  staff_category : String
  role : String
  registration_date : Date
deriving DecidableEq, Repr

/-- Row of the `teacher_attendance` table (model `TeacherAttendance`).
`check_in` / `check_out` timestamps are abstract `Nat` clock readings. -/
structure TeacherAttendance where
  teacher_id : Nat
  date : Date
  check_in : Option Nat
  check_out : Option Nat
  latitude : ℚ
  longitude : ℚ
  location_verified : Bool
  status : String
deriving DecidableEq, Repr

/-- Row of the `stopped_semesters` table (model `StoppedSemester`).
Only the `.date()` part of the `stopped_at` timestamp is ever read
(`get_semester_attendance`), so it is stored as a `Date`. -/
structure StoppedSemester where
  id : Nat
  branch : String
  semester : Nat
  stopped_by : Nat
  stopped_at : Date
  is_active : Bool
deriving DecidableEq, Repr

/-- Row of the `semester_history` table (model `SemesterHistory`). -/
structure SemesterHistory where
  student_id : Nat
  semester_number : Nat
  sectionName : String
  start_date : Date
  end_date : Date
  total_theory_classes : Nat
  present_theory_classes : Nat
  total_lab_classes : Nat
  present_lab_classes : Nat
  attendance_percentage : ℚ
  stopped_by_admin_id : Nat
  stopped_at : Nat
deriving DecidableEq, Repr

/-- Row of the `admin_logs` table (model `AdminLog`). -/
structure AdminLog where
  admin_id : Nat
  action : String
deriving DecidableEq, Repr

/-- The (student, date, period) natural key test used by the re-mark lookup
`Attendance.query.filter_by(student_id=…, date=today, period=…)` in
`mark_student_attendance`. -/
def keyMatch (sid : Nat) (d : Date) (p : Nat) (r : Attendance) : Bool :=
  r.student_id == sid && r.date == d && r.period == p

/-- Number of attendance rows holding a given (student, date, period) key. -/
def keyCount (recs : List Attendance) (sid : Nat) (d : Date) (p : Nat) : Nat :=
  recs.countP (keyMatch sid d p)

/-- One iteration of the marking loop of `mark_student_attendance`
(`app.py` lines 1092–1120): look up the first attendance row with the
(student, date, period) key; if found, overwrite its status, marker,
timestamp, subject and attendance type in place (`semester_at_time` is left
as it was); otherwise insert a fresh row carrying the student's current
semester. -/
def upsertAttendance (sid : Nat) (d : Date) (p : Nat) (status : String)
    (tid : Nat) (now : Nat) (subject : Option String) (sem : Nat)
    (atype : String) : List Attendance → List Attendance
  | [] => [⟨sid, d, p, status, tid, now, subject, sem, atype⟩]
  | r :: rest =>
    if keyMatch sid d p r then
      { r with status := status, marked_by := tid, marked_at := now,
               subject := subject, attendance_type := atype } :: rest
    else
      r :: upsertAttendance sid d p status tid now subject sem atype rest

lemma keyMatch_update (sid : Nat) (d : Date) (p : Nat) (r : Attendance)
    (status : String) (tid now : Nat) (subject : Option String) (atype : String) :
    keyMatch sid d p
      { r with status := status, marked_by := tid, marked_at := now,
               subject := subject, attendance_type := atype } =
    keyMatch sid d p r := rfl

lemma keyMatch_iff (sid : Nat) (d : Date) (p : Nat) (r : Attendance) :
    keyMatch sid d p r = true ↔ r.student_id = sid ∧ r.date = d ∧ r.period = p := by
  simp [keyMatch, Bool.and_assoc]

/-- Effect of the upsert on the row count of each (student, date, period)
key: the written key ends up occupied (a fresh row if it was empty, its
first row overwritten otherwise), every other key is untouched. -/
lemma keyCount_upsertAttendance (recs : List Attendance) (sid : Nat) (d : Date)
    (p : Nat) (status : String) (tid now : Nat) (subject : Option String)
    (sem : Nat) (atype : String) (sid' : Nat) (d' : Date) (p' : Nat) :
    keyCount (upsertAttendance sid d p status tid now subject sem atype recs) sid' d' p' =
      if sid' = sid ∧ d' = d ∧ p' = p then
        (if keyCount recs sid d p = 0 then 1 else keyCount recs sid d p)
      else keyCount recs sid' d' p' := by
  induction recs with
  | nil =>
    by_cases h : sid' = sid ∧ d' = d ∧ p' = p
    · obtain ⟨rfl, rfl, rfl⟩ := h
      simp [upsertAttendance, keyCount, keyMatch]
    · have hkm : keyMatch sid' d' p'
          (⟨sid, d, p, status, tid, now, subject, sem, atype⟩ : Attendance) = false := by
        rw [Bool.eq_false_iff]
        intro hc
        rw [keyMatch_iff] at hc
        exact h ⟨hc.1.symm, hc.2.1.symm, hc.2.2.symm⟩
      simp [upsertAttendance, keyCount, hkm, h]
  | cons r rest ih =>
    by_cases hr : keyMatch sid d p r = true
    · have hup : upsertAttendance sid d p status tid now subject sem atype (r :: rest) =
          { r with status := status, marked_by := tid, marked_at := now,
                   subject := subject, attendance_type := atype } :: rest := by
        simp [upsertAttendance, hr]
      rw [hup]
      by_cases h : sid' = sid ∧ d' = d ∧ p' = p
      · obtain ⟨rfl, rfl, rfl⟩ := h
        rw [if_pos ⟨rfl, rfl, rfl⟩]
        simp only [keyCount, List.countP_cons, keyMatch_update, hr]
        simp
      · rw [if_neg h]
        simp only [keyCount, List.countP_cons, keyMatch_update]
    · have hr' : keyMatch sid d p r = false := Bool.eq_false_iff.mpr hr
      have hup : upsertAttendance sid d p status tid now subject sem atype (r :: rest) =
          r :: upsertAttendance sid d p status tid now subject sem atype rest := by
        simp [upsertAttendance, hr']
      rw [hup]
      by_cases h : sid' = sid ∧ d' = d ∧ p' = p
      · obtain ⟨rfl, rfl, rfl⟩ := h
        have ihh := ih
        simp [keyCount, List.countP_cons, hr'] at ihh ⊢
        omega
      · have ihh := ih
        rw [if_neg h] at ihh
        rw [if_neg h]
        simp only [keyCount, List.countP_cons] at ihh ⊢
        omega

/-- The upsert appends a row exactly when no row with the key existed;
otherwise the list keeps its length (update in place). -/
lemma length_upsertAttendance (recs : List Attendance) (sid : Nat) (d : Date)
    (p : Nat) (status : String) (tid now : Nat) (subject : Option String)
    (sem : Nat) (atype : String) :
    (upsertAttendance sid d p status tid now subject sem atype recs).length =
      if keyCount recs sid d p = 0 then recs.length + 1 else recs.length := by
  induction recs with
  | nil => simp [upsertAttendance, keyCount]
  | cons r rest ih =>
    by_cases hr : keyMatch sid d p r = true
    · simp [upsertAttendance, hr, keyCount, List.countP_cons]
    · have hr' : keyMatch sid d p r = false := Bool.eq_false_iff.mpr hr
      simp only [upsertAttendance, hr', Bool.false_eq_true, if_false, List.length_cons,
        keyCount, List.countP_cons]
      simp only [keyCount] at ih
      rw [ih]
      by_cases h0 : List.countP (keyMatch sid d p) rest = 0 <;> simp [h0, hr']

/-- When a row with the key exists, the upsert keeps that row's identity and
overwrites its status, marker, timestamp, subject and attendance type. -/
lemma upsertAttendance_updates_found (recs : List Attendance) (sid : Nat) (d : Date)
    (p : Nat) (status : String) (tid now : Nat) (subject : Option String)
    (sem : Nat) (atype : String) (r : Attendance)
    (hfind : recs.find? (fun x => keyMatch sid d p x) = some r) :
    ({ r with status := status, marked_by := tid, marked_at := now,
              subject := subject, attendance_type := atype } : Attendance) ∈
      upsertAttendance sid d p status tid now subject sem atype recs := by
  induction recs with
  | nil => simp at hfind
  | cons a rest ih =>
    by_cases ha : keyMatch sid d p a = true
    · rw [List.find?_cons_of_pos _ ha, Option.some_inj] at hfind
      subst hfind
      simp [upsertAttendance, ha]
    · have ha' : keyMatch sid d p a = false := Bool.eq_false_iff.mpr ha
      rw [List.find?_cons_of_neg _ (by simp [ha'])] at hfind
      simp only [upsertAttendance, ha', Bool.false_eq_true, if_false]
      exact List.mem_cons_of_mem _ (ih hfind)

/-- C1: for every student, date and period there is at most one attendance
row keyed by (student, date, period); marking a key that already has a row
updates that row's status, subject, marker and attendance type in place
rather than inserting a second row, and re-marking the same key twice leaves
exactly one row. -/
theorem C1_attendance_upsert_unique_key
    (recs : List Attendance) (sid : Nat) (d : Date) (p : Nat)
    (status status' : String) (tid tid' now now' : Nat)
    (subject subject' : Option String) (sem sem' : Nat) (atype atype' : String)
    (hinv : ∀ sid' d' p', keyCount recs sid' d' p' ≤ 1) :
    keyCount (upsertAttendance sid d p status tid now subject sem atype recs) sid d p = 1
    ∧ (∀ sid' d' p', ¬(sid' = sid ∧ d' = d ∧ p' = p) →
        keyCount (upsertAttendance sid d p status tid now subject sem atype recs) sid' d' p' =
          keyCount recs sid' d' p')
    ∧ (∀ sid' d' p',
        keyCount (upsertAttendance sid d p status tid now subject sem atype recs) sid' d' p' ≤ 1)
    ∧ (upsertAttendance sid d p status tid now subject sem atype recs).length =
        (if keyCount recs sid d p = 0 then recs.length + 1 else recs.length)
    ∧ (∀ r, recs.find? (fun x => keyMatch sid d p x) = some r →
        ({ r with status := status, marked_by := tid, marked_at := now,
                  subject := subject, attendance_type := atype } : Attendance) ∈
          upsertAttendance sid d p status tid now subject sem atype recs)
    ∧ keyCount (upsertAttendance sid d p status' tid' now' subject' sem' atype'
        (upsertAttendance sid d p status tid now subject sem atype recs)) sid d p = 1 := by
  have hsame :
      keyCount (upsertAttendance sid d p status tid now subject sem atype recs) sid d p = 1 := by
    rw [keyCount_upsertAttendance, if_pos ⟨rfl, rfl, rfl⟩]
    have := hinv sid d p
    split <;> omega
  refine ⟨hsame, ?_, ?_, ?_, ?_, ?_⟩
  · intro sid' d' p' h
    rw [keyCount_upsertAttendance, if_neg h]
  · intro sid' d' p'
    rw [keyCount_upsertAttendance]
    by_cases h : sid' = sid ∧ d' = d ∧ p' = p
    · rw [if_pos h]
      have := hinv sid d p
      split <;> omega
    · rw [if_neg h]
      exact hinv sid' d' p'
  · exact length_upsertAttendance recs sid d p status tid now subject sem atype
  · intro r hr
    exact upsertAttendance_updates_found recs sid d p status tid now subject sem atype r hr
  · rw [keyCount_upsertAttendance, if_pos ⟨rfl, rfl, rfl⟩, hsame]
    simp

/-- Witness for C1 at a concrete database: one pre-existing row for
period 1, marking period 1 again keeps a single row. -/
theorem C1_attendance_upsert_unique_key_witness :
    (∀ sid' d' p',
        keyCount [⟨7, ⟨2024, 1, 10⟩, 1, "absent", 3, 5, some "Maths", 3, "theory"⟩]
          sid' d' p' ≤ 1)
    ∧ keyCount
        (upsertAttendance 7 ⟨2024, 1, 10⟩ 1 "present" 3 9 (some "Maths") 3 "theory"
          [⟨7, ⟨2024, 1, 10⟩, 1, "absent", 3, 5, some "Maths", 3, "theory"⟩]) 7 ⟨2024, 1, 10⟩ 1 = 1 := by
  have h : ∀ sid' d' p',
      keyCount [⟨7, ⟨2024, 1, 10⟩, 1, "absent", 3, 5, some "Maths", 3, "theory"⟩]
        sid' d' p' ≤ 1 := by
    intro sid' d' p'
    simp only [keyCount, List.countP_cons, List.countP_nil]
    by_cases hk : keyMatch sid' d' p'
        (⟨7, ⟨2024, 1, 10⟩, 1, "absent", 3, 5, some "Maths", 3, "theory"⟩ : Attendance) = true <;>
      simp [hk]
  exact ⟨h, (C1_attendance_upsert_unique_key _ 7 ⟨2024, 1, 10⟩ 1 "present" "present" 3 3 9 9
    (some "Maths") (some "Maths") 3 3 "theory" "theory" h).1⟩

/-- The guarded percentage idiom used throughout `app.py`:
`(present / total * 100) if total > 0 else 0`. -/
def pct (present total : Nat) : ℚ :=
  if 0 < total then (present : ℚ) / (total : ℚ) * 100 else 0

/-- The attendance types counted as practical classes:
`['lab', 'crt', 'workshop']`. -/
def practicalTypes : List String := ["lab", "crt", "workshop"]

/-- Python-dict upsert used by the grouping loops: if the key is absent,
`dict[key] = init` inserts it at the end (dict insertion order), and then the
loop body `f` mutates the entry in place. -/
def updAssoc {κ α : Type} [DecidableEq κ] (k : κ) (init : α) (f : α → α) :
    List (κ × α) → List (κ × α)
  | [] => [(k, f init)]
  | (k', v) :: rest =>
    if k' = k then (k', f v) :: rest else (k', v) :: updAssoc k init f rest

/-- Python-dict key lookup on the association-list model. -/
def lookupA {κ α : Type} [DecidableEq κ] (k : κ) : List (κ × α) → Option α
  | [] => none
  | (k', v) :: rest => if k' = k then some v else lookupA k rest

/-- Entry of the `subject_wise` dict of `get_comprehensive_attendance`:
`{'total': …, 'present': …, 'type': …, 'percentage': …}` (the percentage is
filled in by a second pass). -/
structure SubjEntry where
  total : Nat
  present : Nat
  type : String
  percentage : ℚ
deriving DecidableEq, Repr

/-- Entry of the `monthly_data` dict of `get_comprehensive_attendance`. -/
structure MonthEntry where
  month_name : String
  theory_total : Nat
  theory_present : Nat
  practical_total : Nat
  practical_present : Nat
deriving DecidableEq, Repr

/-- Subject grouping key: `att.subject or 'Unknown'` (Python `or` also maps
the empty string to the sentinel). -/
def subjKey (att : Attendance) : String :=
  match att.subject with
  | none => "Unknown"
  | some s => if s = "" then "Unknown" else s

/-- One iteration of the subject-wise grouping loop of
`get_comprehensive_attendance` (`app.py` lines 363–369). -/
def subjStep (m : List (String × SubjEntry)) (att : Attendance) :
    List (String × SubjEntry) :=
  updAssoc (subjKey att) ⟨0, 0, att.attendance_type, 0⟩
    (fun e =>
      { e with total := e.total + 1,
               present := if att.status == "present" then e.present + 1 else e.present }) m

/-- The percentage pass over the finished `subject_wise` dict
(`app.py` lines 371–374). -/
def setSubjPct (m : List (String × SubjEntry)) : List (String × SubjEntry) :=
  m.map (fun kv => (kv.1, { kv.2 with percentage := pct kv.2.present kv.2.total }))

/-- One iteration of the monthly grouping loop of
`get_comprehensive_attendance` (`app.py` lines 377–392): a theory record
feeds the theory counters, ANY other attendance type feeds the practical
counters. -/
def monthStep (m : List ((Nat × Nat) × MonthEntry)) (att : Attendance) :
    List ((Nat × Nat) × MonthEntry) :=
  updAssoc (monthKey att.date) ⟨monthLabel att.date, 0, 0, 0, 0⟩
    (fun e =>
      if att.attendance_type == "theory" then
        { e with theory_total := e.theory_total + 1,
                 theory_present :=
                   if att.status == "present" then e.theory_present + 1 else e.theory_present }
      else
        { e with practical_total := e.practical_total + 1,
                 practical_present :=
                   if att.status == "present" then e.practical_present + 1 else e.practical_present }) m

/-- Result dict of `get_comprehensive_attendance`. -/
structure CompResult where
  start_date : Date
  end_date : Date
  theory_total : Nat
  theory_present : Nat
  theory_percentage : ℚ
  practical_total : Nat
  practical_present : Nat
  practical_percentage : ℚ
  total_periods : Nat
  present_periods : Nat
  overall_percentage : ℚ
  subject_wise : List (String × SubjEntry)
  monthly_breakdown : List ((Nat × Nat) × MonthEntry)
  theory_attendances : List Attendance
  practical_attendances : List Attendance
deriving DecidableEq, Repr

/-- The attendance rows selected by `get_comprehensive_attendance`'s query:
the student's rows in the date range whose `semester_at_time` equals the
student's current semester. -/
def compAttendances (today : Date) (db : List Attendance) (student : Student)
    (startQ endQ : Option Date) : List Attendance :=
  let start_date := startQ.getD student.semester_start_date
  let end_date := endQ.getD today
  db.filter (fun a =>
    a.student_id == student.id && Date.le start_date a.date &&
      Date.le a.date end_date && a.semester_at_time == student.current_semester)

/-- `get_comprehensive_attendance(student, start_date, end_date)`
(`app.py` lines 337–404). Defaults: the student's `semester_start_date`
through `today`. -/
def getComprehensiveAttendance (today : Date) (db : List Attendance)
    (student : Student) (startQ endQ : Option Date) : CompResult :=
  let start_date := startQ.getD student.semester_start_date
  let end_date := endQ.getD today
  let attendances := compAttendances today db student startQ endQ
  let theory_attendances := attendances.filter (fun a => a.attendance_type == "theory")
  let practical_attendances :=
    attendances.filter (fun a => practicalTypes.contains a.attendance_type)
  let theory_total := theory_attendances.length
  let theory_present := theory_attendances.countP (fun a => a.status == "present")
  let practical_total := practical_attendances.length
  let practical_present := practical_attendances.countP (fun a => a.status == "present")
  let total_periods := theory_total + practical_total
  let present_periods := theory_present + practical_present
  { start_date := start_date, end_date := end_date,
    theory_total := theory_total, theory_present := theory_present,
    theory_percentage := pct theory_present theory_total,
    practical_total := practical_total, practical_present := practical_present,
    practical_percentage := pct practical_present practical_total,
    total_periods := total_periods, present_periods := present_periods,
    overall_percentage := pct present_periods total_periods,
    subject_wise := setSubjPct (attendances.foldl subjStep []),
    monthly_breakdown := attendances.foldl monthStep [],
    theory_attendances := theory_attendances,
    practical_attendances := practical_attendances }

/-- The student of the spec's §8 scenario: registered with
`semester_start_date = 2024-01-10`, currently in semester 3. -/
def scenarioStudent : Student :=
  ⟨1, 1, "S", "24B81A0501", "CSE", 3, "A", "9999999999", ⟨2024, 1, 10⟩, true⟩

/-- The scenario's attendance rows: period 1 present and period 2 absent on
2024-01-10, both theory, marked in semester 3. -/
def scenarioAtts : List Attendance :=
  [⟨1, ⟨2024, 1, 10⟩, 1, "present", 2, 0, some "Maths", 3, "theory"⟩,
   ⟨1, ⟨2024, 1, 10⟩, 2, "absent", 2, 0, some "Maths", 3, "theory"⟩]

/-- C3: for the scenario student, `get_comprehensive_attendance` over the
default range (semester_start_date through today) returns theory_total = 2,
theory_present = 1, theory_percentage = 50 and overall_percentage = 50,
for every `today` on or after 2024-01-10. -/
theorem C3_default_range_scenario (today : Date)
    (h : Date.le ⟨2024, 1, 10⟩ today = true) :
    (getComprehensiveAttendance today scenarioAtts scenarioStudent none none).theory_total = 2
    ∧ (getComprehensiveAttendance today scenarioAtts scenarioStudent none none).theory_present = 1
    ∧ (getComprehensiveAttendance today scenarioAtts scenarioStudent none none).theory_percentage = 50
    ∧ (getComprehensiveAttendance today scenarioAtts scenarioStudent none none).overall_percentage = 50 := by
  have hle : Date.le ⟨2024, 1, 10⟩ ⟨2024, 1, 10⟩ = true := by decide
  have hf : compAttendances today scenarioAtts scenarioStudent none none = scenarioAtts := by
    simp [compAttendances, scenarioAtts, scenarioStudent, h, hle]
  simp only [getComprehensiveAttendance, hf]
  have h1 : (List.filter (fun a => a.attendance_type == "theory") scenarioAtts).length = 2 := by
    decide
  have h2 : List.countP (fun a => a.status == "present")
      (List.filter (fun a => a.attendance_type == "theory") scenarioAtts) = 1 := by decide
  have h3 : (List.filter (fun a => practicalTypes.contains a.attendance_type) scenarioAtts).length = 0 := by
    decide
  have h4 : List.countP (fun a => a.status == "present")
      (List.filter (fun a => practicalTypes.contains a.attendance_type) scenarioAtts) = 0 := by
    decide
  rw [h1, h2, h3, h4]
  norm_num [pct]

/-- Witness for C3 at the concrete `today` 2024-01-15. -/
theorem C3_default_range_scenario_witness :
    Date.le ⟨2024, 1, 10⟩ ⟨2024, 1, 15⟩ = true
    ∧ (getComprehensiveAttendance ⟨2024, 1, 15⟩ scenarioAtts scenarioStudent none none).theory_total = 2
    ∧ (getComprehensiveAttendance ⟨2024, 1, 15⟩ scenarioAtts scenarioStudent none none).theory_present = 1
    ∧ (getComprehensiveAttendance ⟨2024, 1, 15⟩ scenarioAtts scenarioStudent none none).theory_percentage = 50
    ∧ (getComprehensiveAttendance ⟨2024, 1, 15⟩ scenarioAtts scenarioStudent none none).overall_percentage = 50 :=
  ⟨by decide, C3_default_range_scenario ⟨2024, 1, 15⟩ (by decide)⟩

/-- `is_semester_stopped(branch, semester)` (`app.py` lines 331–335): an
active stop record exists for the pair. -/
def is_semester_stopped (stopped : List StoppedSemester) (branch : String)
    (semester : Nat) : Bool :=
  (stopped.find? (fun r =>
    r.branch == branch && r.semester == semester && r.is_active)).isSome

/-- Row of the per-student list built by `get_semester_attendance`
(`app.py` lines 607–621). -/
structure SemRow where
  student : Student
  theory_present : Nat
  theory_total : Nat
  theory_percentage : ℚ
  practical_present : Nat
  practical_total : Nat
  practical_percentage : ℚ
  total_present : Nat
  total_classes : Nat
  overall_percentage : ℚ
  start_date : Date
  end_date : Date
  is_active : Bool
deriving DecidableEq, Repr

/-- `SemesterHistory.query.filter_by(student_id=…, semester_number=…)
.order_by(stopped_at.desc()).first()`: the first row with the greatest
`stopped_at` among the student's archived rows. -/
def latestHistory (history : List SemesterHistory) (s : Student) :
    Option SemesterHistory :=
  (history.filter (fun h =>
    h.student_id == s.id && h.semester_number == s.current_semester)).foldl
    (fun acc h =>
      match acc with
      | none => some h
      | some b => if b.stopped_at < h.stopped_at then some h else some b) none

/-- The per-student loop body of `get_semester_attendance` (`app.py` lines
563–621): each student gets an individual date range — their own
`semester_start_date` up to the active stop record's date if their
branch/semester is stopped, else their latest archived `end_date` if they
are individually inactive, else today. -/
def semRowFor (today : Date) (stopped : List StoppedSemester)
    (history : List SemesterHistory) (db : List Attendance)
    (student : Student) : SemRow :=
  let start_date := student.semester_start_date
  let stoppedRec := stopped.find? (fun r =>
    r.branch == student.branch && r.semester == student.current_semester && r.is_active)
  let end_date :=
    match stoppedRec with
    | some r => r.stopped_at
    | none =>
      if student.is_semester_active then today
      else
        match latestHistory history student with
        | some h => h.end_date
        | none => today
  let atts := db.filter (fun a =>
    a.student_id == student.id && a.semester_at_time == student.current_semester &&
      Date.le start_date a.date && Date.le a.date end_date)
  let theory_present := atts.countP (fun a =>
    a.attendance_type == "theory" && a.status == "present")
  let theory_total := atts.countP (fun a => a.attendance_type == "theory")
  let practical_present := atts.countP (fun a =>
    practicalTypes.contains a.attendance_type && a.status == "present")
  let practical_total := atts.countP (fun a => practicalTypes.contains a.attendance_type)
  let total_present := theory_present + practical_present
  let total_classes := theory_total + practical_total
  { student := student,
    theory_present := theory_present, theory_total := theory_total,
    theory_percentage := pct theory_present theory_total,
    practical_present := practical_present, practical_total := practical_total,
    practical_percentage := pct practical_present practical_total,
    total_present := total_present, total_classes := total_classes,
    overall_percentage := pct total_present total_classes,
    start_date := start_date, end_date := end_date,
    is_active := student.is_semester_active }

/-- Stable insertion into a list sorted ascending by register number. -/
def insertByReg (x : Student) : List Student → List Student
  | [] => [x]
  | y :: rest =>
    if x.register_number < y.register_number then x :: y :: rest
    else y :: insertByReg x rest

/-- `ORDER BY register_number ASC` over the student list. -/
def sortByReg (l : List Student) : List Student :=
  l.foldr insertByReg []

/-- `get_semester_attendance(branch, semester, section)` (`app.py` lines
548–623); a `none` filter models the `'all'` selector. -/
def getSemesterAttendance (today : Date) (stopped : List StoppedSemester)
    (history : List SemesterHistory) (db : List Attendance)
    (students : List Student) (branchQ : Option String) (semQ : Option Nat)
    (secQ : Option String) : List SemRow :=
  let selected := students.filter (fun s =>
    (match branchQ with | none => true | some b => s.branch == b) &&
    (match semQ with | none => true | some m => s.current_semester == m) &&
    (match secQ with | none => true | some c => s.sectionName == c))
  (sortByReg selected).map (semRowFor today stopped history db)

/-- Entry of the teacher-yearly `monthly_data` dict (`app.py` lines
425–435); the raw check-in/check-out readings are kept instead of their
`'%H:%M'` renderings (string formatting is presentation only). -/
structure TYMonth where
  month_name : String
  days_present : Nat
  check_ins : List (Date × Option Nat × Option Nat)
deriving DecidableEq, Repr

/-- Result dict of `get_teacher_yearly_attendance`. -/
structure TYResult where
  year : Nat
  start_date : Date
  end_date : Date
  total_days_present : Nat
  working_days : Nat
  percentage : ℚ
  monthly_breakdown : List ((Nat × Nat) × TYMonth)
deriving DecidableEq, Repr

/-- One iteration of the teacher-yearly monthly loop (`app.py` 426–435). -/
def tyStep (m : List ((Nat × Nat) × TYMonth)) (a : TeacherAttendance) :
    List ((Nat × Nat) × TYMonth) :=
  updAssoc (monthKey a.date) ⟨monthName a.date.month, 0, []⟩
    (fun e => { e with days_present := e.days_present + 1,
                       check_ins := e.check_ins ++ [(a.date, a.check_in, a.check_out)] }) m

/-- `get_teacher_yearly_attendance(teacher, year)` (`app.py` lines 406–445):
present records between Jan 1 (clipped to the registration date when the
teacher registered that year) and Dec 31; `working_days` counts the
weekdays (Mon–Fri) of that range. -/
def getTeacherYearlyAttendance (today : Date) (db : List TeacherAttendance)
    (teacher : Teacher) (yearQ : Option Nat) : TYResult :=
  let year := yearQ.getD today.year
  let start_date : Date :=
    if teacher.registration_date.year == year then teacher.registration_date
    else ⟨year, 1, 1⟩
  let end_date : Date := ⟨year, 12, 31⟩
  let atts := db.filter (fun a =>
    a.teacher_id == teacher.id && Date.le start_date a.date &&
      Date.le a.date end_date && a.status == "present")
  let total_days := atts.length
  let working_days :=
    (List.range (((end_date.toOrdinal : Int) - (start_date.toOrdinal : Int) + 1).toNat)).countP
      (fun day => (start_date.toOrdinal + day - 1) % 7 < 5)
  { year := year, start_date := start_date, end_date := end_date,
    total_days_present := total_days, working_days := working_days,
    percentage := pct total_days working_days,
    monthly_breakdown := atts.foldl tyStep [] }

lemma pct_of_total_zero (present : Nat) : pct present 0 = 0 := by
  simp [pct]

/-- Days in calendar month `m` of year `y`. -/
def daysInMonth (y m : Nat) : Nat :=
  match m with
  | 2 => if Date.isLeap y then 29 else 28
  | 4 => 30 | 6 => 30 | 9 => 30 | 11 => 30
  | _ => 31

/-- `date(y, m, 1) - timedelta(days=1)`: the last day of the month that
precedes month `m` of year `y`. -/
def prevDayOfFirst (y m : Nat) : Date :=
  if m = 1 then ⟨y - 1, 12, 31⟩ else ⟨y, m - 1, daysInMonth y (m - 1)⟩

/-- Row of the monthly roster built by `get_monthly_attendance`
(`app.py` lines 534–541): per-student totals over one calendar month and the
guarded overall percentage (the only percentage this report computes). -/
structure MonthlyRow where
  student : Student
  theory_present : Nat
  theory_total : Nat
  practical_present : Nat
  practical_total : Nat
  overall_percentage : ℚ
deriving DecidableEq, Repr

/-- The per-student loop body of `get_monthly_attendance` (`app.py` lines
522–541); its attendance query filters only on student and date range (no
`semester_at_time` filter, unlike `get_comprehensive_attendance`). -/
def monthlyRowFor (start_date end_date : Date) (db : List Attendance)
    (student : Student) : MonthlyRow :=
  let atts := db.filter (fun a =>
    a.student_id == student.id && Date.le start_date a.date && Date.le a.date end_date)
  let theory_present := atts.countP (fun a =>
    a.attendance_type == "theory" && a.status == "present")
  let theory_total := atts.countP (fun a => a.attendance_type == "theory")
  let practical_present := atts.countP (fun a =>
    practicalTypes.contains a.attendance_type && a.status == "present")
  let practical_total := atts.countP (fun a => practicalTypes.contains a.attendance_type)
  { student := student,
    theory_present := theory_present, theory_total := theory_total,
    practical_present := practical_present, practical_total := practical_total,
    overall_percentage :=
      pct (theory_present + practical_present) (theory_total + practical_total) }

/-- `get_monthly_attendance(branch, semester, section, month, year)`
(`app.py` lines 494–544): the month runs from its first day to
`date(of the next month, 1) - timedelta(days=1)`; active students passing
the optional branch/semester/section filters are ordered by register
number. Returns (rows, start_date, end_date). -/
def get_monthly_attendance (db : List Attendance) (students : List Student)
    (branchQ : Option String) (semQ : Option Nat) (secQ : Option String)
    (month year : Nat) : List MonthlyRow × Date × Date :=
  let start_date : Date := ⟨year, month, 1⟩
  let end_date : Date :=
    if month == 12 then prevDayOfFirst (year + 1) 1 else prevDayOfFirst year (month + 1)
  let selected := students.filter (fun s =>
    s.is_semester_active &&
    (match branchQ with | none => true | some b => s.branch == b) &&
    (match semQ with | none => true | some m => s.current_semester == m) &&
    (match secQ with | none => true | some c => s.sectionName == c))
  ((sortByReg selected).map (monthlyRowFor start_date end_date db), start_date, end_date)

/-- C2: every percentage computed by the aggregation functions is total:
a zero denominator (theory, practical, overall, per-subject,
per-semester-row, a monthly-roster row's total, or teacher working days)
yields percentage 0 rather than an error. -/
theorem C2_zero_denominator_yields_zero
    (today : Date) (db : List Attendance) (student : Student)
    (startQ endQ : Option Date) (stopped : List StoppedSemester)
    (history : List SemesterHistory) (students : List Student)
    (branchQ : Option String) (semQ : Option Nat) (secQ : Option String)
    (month year : Nat)
    (tdb : List TeacherAttendance) (teacher : Teacher) (yearQ : Option Nat) :
    ((getComprehensiveAttendance today db student startQ endQ).theory_total = 0 →
        (getComprehensiveAttendance today db student startQ endQ).theory_percentage = 0)
    ∧ ((getComprehensiveAttendance today db student startQ endQ).practical_total = 0 →
        (getComprehensiveAttendance today db student startQ endQ).practical_percentage = 0)
    ∧ ((getComprehensiveAttendance today db student startQ endQ).total_periods = 0 →
        (getComprehensiveAttendance today db student startQ endQ).overall_percentage = 0)
    ∧ (∀ kv ∈ (getComprehensiveAttendance today db student startQ endQ).subject_wise,
        kv.2.total = 0 → kv.2.percentage = 0)
    ∧ (∀ row ∈ getSemesterAttendance today stopped history db students branchQ semQ secQ,
        (row.theory_total = 0 → row.theory_percentage = 0)
        ∧ (row.practical_total = 0 → row.practical_percentage = 0)
        ∧ (row.total_classes = 0 → row.overall_percentage = 0))
    ∧ (∀ row ∈ (get_monthly_attendance db students branchQ semQ secQ month year).1,
        row.theory_total + row.practical_total = 0 → row.overall_percentage = 0)
    ∧ ((getTeacherYearlyAttendance today tdb teacher yearQ).working_days = 0 →
        (getTeacherYearlyAttendance today tdb teacher yearQ).percentage = 0) := by
  refine ⟨?_, ?_, ?_, ?_, ?_, ?_, ?_⟩
  · intro h0
    have hp : (getComprehensiveAttendance today db student startQ endQ).theory_percentage =
        pct (getComprehensiveAttendance today db student startQ endQ).theory_present
          (getComprehensiveAttendance today db student startQ endQ).theory_total := rfl
    rw [hp, h0, pct_of_total_zero]
  · intro h0
    have hp : (getComprehensiveAttendance today db student startQ endQ).practical_percentage =
        pct (getComprehensiveAttendance today db student startQ endQ).practical_present
          (getComprehensiveAttendance today db student startQ endQ).practical_total := rfl
    rw [hp, h0, pct_of_total_zero]
  · intro h0
    have hp : (getComprehensiveAttendance today db student startQ endQ).overall_percentage =
        pct (getComprehensiveAttendance today db student startQ endQ).present_periods
          (getComprehensiveAttendance today db student startQ endQ).total_periods := rfl
    rw [hp, h0, pct_of_total_zero]
  · intro kv hkv h0
    have hsw : (getComprehensiveAttendance today db student startQ endQ).subject_wise =
        setSubjPct ((compAttendances today db student startQ endQ).foldl subjStep []) := rfl
    rw [hsw] at hkv
    simp only [setSubjPct, List.mem_map] at hkv
    obtain ⟨⟨k, e⟩, _, rfl⟩ := hkv
    simp only at h0 ⊢
    rw [h0, pct_of_total_zero]
  · intro row hrow
    simp only [getSemesterAttendance, List.mem_map] at hrow
    obtain ⟨s, _, rfl⟩ := hrow
    refine ⟨?_, ?_, ?_⟩
    · intro h0
      have hp : (semRowFor today stopped history db s).theory_percentage =
          pct (semRowFor today stopped history db s).theory_present
            (semRowFor today stopped history db s).theory_total := rfl
      rw [hp, h0, pct_of_total_zero]
    · intro h0
      have hp : (semRowFor today stopped history db s).practical_percentage =
          pct (semRowFor today stopped history db s).practical_present
            (semRowFor today stopped history db s).practical_total := rfl
      rw [hp, h0, pct_of_total_zero]
    · intro h0
      have hp : (semRowFor today stopped history db s).overall_percentage =
          pct (semRowFor today stopped history db s).total_present
            (semRowFor today stopped history db s).total_classes := rfl
      rw [hp, h0, pct_of_total_zero]
  · intro row hrow
    simp only [get_monthly_attendance, List.mem_map] at hrow
    obtain ⟨s, _, rfl⟩ := hrow
    intro h0
    have hp : ∀ (sd ed : Date) (adb : List Attendance) (st : Student),
        (monthlyRowFor sd ed adb st).overall_percentage =
          pct ((monthlyRowFor sd ed adb st).theory_present +
              (monthlyRowFor sd ed adb st).practical_present)
            ((monthlyRowFor sd ed adb st).theory_total +
              (monthlyRowFor sd ed adb st).practical_total) := fun _ _ _ _ => rfl
    rw [hp, h0, pct_of_total_zero]
  · intro h0
    have hp : (getTeacherYearlyAttendance today tdb teacher yearQ).percentage =
        pct (getTeacherYearlyAttendance today tdb teacher yearQ).total_days_present
          (getTeacherYearlyAttendance today tdb teacher yearQ).working_days := rfl
    rw [hp, h0, pct_of_total_zero]

/-- A teacher whose registration date 2022-12-31 falls on a Saturday: the
clipped 2022 range has zero working days. -/
def weekendTeacher : Teacher :=
  ⟨1, 1, "T", "CSE", "E1", "Teaching Staff", "Professor", ⟨2022, 12, 31⟩⟩

/-- Witness for C2: empty data and a zero-working-day year give percentage 0
everywhere the theorem's hypotheses can be discharged concretely, including
a January-2024 monthly-roster row with no classes. -/
theorem C2_zero_denominator_yields_zero_witness :
    (getComprehensiveAttendance ⟨2024, 1, 15⟩ [] scenarioStudent none none).theory_percentage = 0
    ∧ (getComprehensiveAttendance ⟨2024, 1, 15⟩ [] scenarioStudent none none).practical_percentage = 0
    ∧ (getComprehensiveAttendance ⟨2024, 1, 15⟩ [] scenarioStudent none none).overall_percentage = 0
    ∧ (semRowFor ⟨2024, 1, 15⟩ [] [] [] scenarioStudent).overall_percentage = 0
    ∧ (monthlyRowFor ⟨2024, 1, 1⟩ ⟨2024, 1, 31⟩ [] scenarioStudent).overall_percentage = 0
    ∧ (getTeacherYearlyAttendance ⟨2024, 1, 15⟩ [] weekendTeacher (some 2022)).percentage = 0 := by
  have h := C2_zero_denominator_yields_zero ⟨2024, 1, 15⟩ [] scenarioStudent none none
    [] [] [scenarioStudent] none none none 1 2024 [] weekendTeacher (some 2022)
  have hmem : semRowFor ⟨2024, 1, 15⟩ [] [] [] scenarioStudent ∈
      getSemesterAttendance ⟨2024, 1, 15⟩ [] [] [] [scenarioStudent] none none none := by
    simp [getSemesterAttendance, sortByReg, insertByReg]
  have hmem2 : monthlyRowFor ⟨2024, 1, 1⟩ ⟨2024, 1, 31⟩ [] scenarioStudent ∈
      (get_monthly_attendance [] [scenarioStudent] none none none 1 2024).1 := by
    have hend : prevDayOfFirst 2024 2 = (⟨2024, 1, 31⟩ : Date) := by decide
    simp [get_monthly_attendance, sortByReg, insertByReg, scenarioStudent, hend]
  refine ⟨h.1 (by decide), h.2.1 (by decide), h.2.2.1 (by decide), ?_, ?_, ?_⟩
  · exact (h.2.2.2.2.1 _ hmem).2.2 (by decide)
  · exact h.2.2.2.2.2.1 _ hmem2 (by decide)
  · exact h.2.2.2.2.2.2 (by decide)

/-- The `practical_total` counter stored in a monthly dict under key `k`
(0 when the month has no entry, matching the dict's default). -/
def mPT (m : List ((Nat × Nat) × MonthEntry)) (k : Nat × Nat) : Nat :=
  (lookupA k m).elim 0 (fun e => e.practical_total)

/-- The grand total of theory plus practical classes recorded across the
monthly dict. -/
def monthlySum (m : List ((Nat × Nat) × MonthEntry)) : Nat :=
  (m.map (fun kv => kv.2.theory_total + kv.2.practical_total)).sum

lemma lookupA_updAssoc {κ α : Type} [DecidableEq κ] (k k' : κ) (init : α)
    (f : α → α) (l : List (κ × α)) :
    lookupA k' (updAssoc k init f l) =
      if k' = k then some (f ((lookupA k l).getD init)) else lookupA k' l := by
  induction l with
  | nil =>
    by_cases h : k' = k
    · subst h; simp [updAssoc, lookupA]
    · have h2 : ¬k = k' := fun hk => h hk.symm
      simp [updAssoc, lookupA, h, h2]
  | cons kv rest ih =>
    obtain ⟨k₀, v⟩ := kv
    by_cases h₀ : k₀ = k
    · subst h₀
      by_cases h' : k' = k₀
      · subst h'; simp [updAssoc, lookupA]
      · have h2 : ¬k₀ = k' := fun hk => h' hk.symm
        simp [updAssoc, lookupA, h', h2]
    · by_cases h' : k₀ = k'
      · subst h'
        simp [updAssoc, lookupA, h₀, fun hk : k₀ = k => h₀ hk]
      · simp [updAssoc, lookupA, h₀, h', ih]

/-- The Bool test "belongs to month `k` and is not a theory record". -/
def inMonthNonTheory (k : Nat × Nat) (a : Attendance) : Bool :=
  decide (monthKey a.date = k) && !(a.attendance_type == "theory")

lemma mPT_monthStep (acc : List ((Nat × Nat) × MonthEntry)) (a : Attendance)
    (k : Nat × Nat) :
    mPT (monthStep acc a) k =
      mPT acc k + (if inMonthNonTheory k a then 1 else 0) := by
  unfold monthStep mPT inMonthNonTheory
  rw [lookupA_updAssoc]
  by_cases hk : k = monthKey a.date
  · subst hk
    rw [if_pos rfl]
    by_cases hth : a.attendance_type == "theory"
    · cases hlk : lookupA (monthKey a.date) acc <;> simp [hlk, hth]
    · have hth' : (a.attendance_type == "theory") = false := Bool.eq_false_iff.mpr hth
      cases hlk : lookupA (monthKey a.date) acc <;> simp [hlk, hth']
  · rw [if_neg hk]
    have : decide (monthKey a.date = k) = false := by
      simp only [decide_eq_false_iff_not]
      exact fun h => hk h.symm
    simp [this]

lemma mPT_foldl (atts : List Attendance) (acc : List ((Nat × Nat) × MonthEntry))
    (k : Nat × Nat) :
    mPT (atts.foldl monthStep acc) k = mPT acc k + atts.countP (inMonthNonTheory k) := by
  induction atts generalizing acc with
  | nil => simp
  | cons a rest ih =>
    rw [List.foldl_cons, ih, mPT_monthStep, List.countP_cons]
    by_cases h : inMonthNonTheory k a
    · simp only [h, if_true]
      omega
    · simp [h]

lemma monthlySum_updAssoc (k : Nat × Nat) (init : MonthEntry)
    (f : MonthEntry → MonthEntry) (l : List ((Nat × Nat) × MonthEntry))
    (hf : ∀ e, (f e).theory_total + (f e).practical_total =
      e.theory_total + e.practical_total + 1)
    (hinit : init.theory_total + init.practical_total = 0) :
    monthlySum (updAssoc k init f l) = monthlySum l + 1 := by
  induction l with
  | nil => simp [updAssoc, monthlySum, hf, hinit]
  | cons kv rest ih =>
    obtain ⟨k₀, v⟩ := kv
    by_cases h₀ : k₀ = k
    · simp [updAssoc, h₀, monthlySum, hf]
      omega
    · simp only [updAssoc, h₀, if_false, monthlySum, List.map_cons, List.sum_cons]
      simp only [monthlySum] at ih
      omega

lemma monthlySum_monthStep (acc : List ((Nat × Nat) × MonthEntry)) (a : Attendance) :
    monthlySum (monthStep acc a) = monthlySum acc + 1 := by
  unfold monthStep
  apply monthlySum_updAssoc
  · intro e
    by_cases hth : a.attendance_type == "theory" <;> simp [hth] <;> omega
  · rfl

lemma monthlySum_foldl (atts : List Attendance)
    (acc : List ((Nat × Nat) × MonthEntry)) :
    monthlySum (atts.foldl monthStep acc) = monthlySum acc + atts.length := by
  induction atts generalizing acc with
  | nil => simp
  | cons a rest ih =>
    rw [List.foldl_cons, ih, monthlySum_monthStep, List.length_cons]
    omega

lemma countP_add_countP_disjoint {α : Type} (p q : α → Bool) (l : List α)
    (hdisj : ∀ a ∈ l, ¬(p a = true ∧ q a = true)) :
    l.countP (fun a => p a || q a) = l.countP p + l.countP q := by
  induction l with
  | nil => simp
  | cons a rest ih =>
    have hd := hdisj a (List.mem_cons_self a rest)
    have hrest : ∀ b ∈ rest, ¬(p b = true ∧ q b = true) := fun b hb =>
      hdisj b (List.mem_cons_of_mem a hb)
    simp only [List.countP_cons, ih hrest]
    cases hp : p a <;> cases hq : q a <;> simp_all <;> omega

lemma countP_lt_countP_of_witness {α : Type} (p q : α → Bool) (l : List α)
    (hpq : ∀ a ∈ l, p a = true → q a = true) (x : α) (hx : x ∈ l)
    (hqx : q x = true) (hpx : p x = false) :
    l.countP p < l.countP q := by
  induction l with
  | nil => simp at hx
  | cons a rest ih =>
    have hrest : ∀ b ∈ rest, p b = true → q b = true := fun b hb =>
      hpq b (List.mem_cons_of_mem a hb)
    rcases List.mem_cons.mp hx with rfl | hx'
    · have hle := List.countP_mono_left hrest
      simp only [List.countP_cons, hpx, hqx]
      simp
      omega
    · have := ih hrest hx'
      have hpa := hpq a (List.mem_cons_self a rest)
      simp only [List.countP_cons]
      cases ha : p a
      · cases hb : q a <;> simp <;> omega
      · rw [hpa ha]
        simp
        omega

/-- C10: a record whose attendance_type is none of theory/lab/crt/workshop
is excluded from both buckets (hence from total_periods and the overall
percentage) yet is counted as a practical class in its month's breakdown,
so the monthly totals exceed the semester-level total. -/
theorem C10_stray_type_monthly_vs_overall
    (today : Date) (db : List Attendance) (student : Student)
    (startQ endQ : Option Date) (att : Attendance)
    (hmem : att ∈ compAttendances today db student startQ endQ)
    (hth : att.attendance_type ≠ "theory")
    (hpr : practicalTypes.contains att.attendance_type = false) :
    att ∉ (getComprehensiveAttendance today db student startQ endQ).theory_attendances
    ∧ att ∉ (getComprehensiveAttendance today db student startQ endQ).practical_attendances
    ∧ (getComprehensiveAttendance today db student startQ endQ).total_periods =
        (compAttendances today db student startQ endQ).countP
          (fun a => a.attendance_type == "theory" || practicalTypes.contains a.attendance_type)
    ∧ mPT (getComprehensiveAttendance today db student startQ endQ).monthly_breakdown
        (monthKey att.date) =
        (compAttendances today db student startQ endQ).countP
          (inMonthNonTheory (monthKey att.date))
    ∧ 1 ≤ mPT (getComprehensiveAttendance today db student startQ endQ).monthly_breakdown
        (monthKey att.date)
    ∧ monthlySum (getComprehensiveAttendance today db student startQ endQ).monthly_breakdown =
        (compAttendances today db student startQ endQ).length
    ∧ (getComprehensiveAttendance today db student startQ endQ).total_periods <
        monthlySum (getComprehensiveAttendance today db student startQ endQ).monthly_breakdown := by
  have hthb : (att.attendance_type == "theory") = false := by
    simp [hth]
  have hmb : (getComprehensiveAttendance today db student startQ endQ).monthly_breakdown =
      (compAttendances today db student startQ endQ).foldl monthStep [] := rfl
  have hta : (getComprehensiveAttendance today db student startQ endQ).theory_attendances =
      (compAttendances today db student startQ endQ).filter
        (fun a => a.attendance_type == "theory") := rfl
  have hpa : (getComprehensiveAttendance today db student startQ endQ).practical_attendances =
      (compAttendances today db student startQ endQ).filter
        (fun a => practicalTypes.contains a.attendance_type) := rfl
  have htt : (getComprehensiveAttendance today db student startQ endQ).total_periods =
      (compAttendances today db student startQ endQ).countP
        (fun a => a.attendance_type == "theory") +
      (compAttendances today db student startQ endQ).countP
        (fun a => practicalTypes.contains a.attendance_type) := by
    show ((compAttendances today db student startQ endQ).filter
        (fun a => a.attendance_type == "theory")).length +
      ((compAttendances today db student startQ endQ).filter
        (fun a => practicalTypes.contains a.attendance_type)).length = _
    rw [← List.countP_eq_length_filter, ← List.countP_eq_length_filter]
  have hdisj : ∀ a ∈ compAttendances today db student startQ endQ,
      ¬((a.attendance_type == "theory") = true ∧
        practicalTypes.contains a.attendance_type = true) := by
    intro a _ hc
    obtain ⟨h1, h2⟩ := hc
    rw [beq_iff_eq] at h1
    rw [h1] at h2
    simp [practicalTypes] at h2
  have hsplit := countP_add_countP_disjoint
    (fun a => a.attendance_type == "theory")
    (fun a => practicalTypes.contains a.attendance_type)
    (compAttendances today db student startQ endQ) hdisj
  have hm : mPT ((compAttendances today db student startQ endQ).foldl monthStep [])
      (monthKey att.date) =
      (compAttendances today db student startQ endQ).countP
        (inMonthNonTheory (monthKey att.date)) := by
    rw [mPT_foldl]
    simp [mPT, lookupA]
  have hms : monthlySum ((compAttendances today db student startQ endQ).foldl monthStep []) =
      (compAttendances today db student startQ endQ).length := by
    rw [monthlySum_foldl]
    simp [monthlySum]
  refine ⟨?_, ?_, ?_, ?_, ?_, ?_, ?_⟩
  · rw [hta]
    simp [List.mem_filter, hthb]
  · rw [hpa]
    intro hc
    rw [List.mem_filter] at hc
    have h2 := hc.2
    rw [hpr] at h2
    exact Bool.false_ne_true h2
  · rw [htt, hsplit]
  · rw [hmb, hm]
  · rw [hmb, hm]
    have : 0 < (compAttendances today db student startQ endQ).countP
        (inMonthNonTheory (monthKey att.date)) :=
      List.countP_pos_iff.mpr ⟨att, hmem, by simp [inMonthNonTheory, hthb]⟩
    omega
  · rw [hmb, hms]
  · rw [hmb, hms, htt, ← hsplit]
    have hx : (fun a => a.attendance_type == "theory" ||
        practicalTypes.contains a.attendance_type) att = false := by
      show (att.attendance_type == "theory" || practicalTypes.contains att.attendance_type) = false
      rw [hthb, hpr]
      rfl
    have hlt := countP_lt_countP_of_witness
      (fun a => a.attendance_type == "theory" || practicalTypes.contains a.attendance_type)
      (fun _ => true)
      (compAttendances today db student startQ endQ)
      (fun a _ _ => rfl) att hmem rfl hx
    rw [List.countP_true] at hlt
    exact hlt

/-- A single in-range record with the stray attendance type `"seminar"`. -/
def strayAtt : Attendance :=
  ⟨1, ⟨2024, 1, 10⟩, 3, "present", 2, 0, some "Training", 3, "seminar"⟩

/-- Witness for C10: with one `"seminar"` record the semester-level total is
0 while its month records one practical class. -/
theorem C10_stray_type_monthly_vs_overall_witness :
    (getComprehensiveAttendance ⟨2024, 1, 15⟩ [strayAtt] scenarioStudent none none).total_periods <
      monthlySum (getComprehensiveAttendance ⟨2024, 1, 15⟩ [strayAtt] scenarioStudent
        none none).monthly_breakdown :=
  (C10_stray_type_monthly_vs_overall ⟨2024, 1, 15⟩ [strayAtt] scenarioStudent none none strayAtt
    (by decide) (by decide) (by decide)).2.2.2.2.2.2

/-- Outcome of the combined check-in/check-out endpoint
`mark_teacher_attendance` (`app.py` lines 1005–1054). -/
inductive TMark where
  | checkedIn
  | checkedOut
  | alreadyCheckedOut
  | locationRejected
deriving DecidableEq, Repr

/-- The `(teacher, today)` record lookup
`TeacherAttendance.query.filter_by(teacher_id=…, date=today).first()`. -/
def findTA (db : List TeacherAttendance) (tid : Nat) (today : Date) :
    Option TeacherAttendance :=
  db.find? (fun a => a.teacher_id == tid && a.date == today)

/-- `mark_teacher_attendance` (`app.py` lines 1022–1050): one toggling
endpoint — when a record for (teacher, today) exists without a check-out,
the call writes the check-out; when it already has one, the call is
rejected (`'Already checked out today'`); when no record exists and the
location verifies, a fresh check-in row is inserted. -/
def markTeacherAttendance (today : Date) (now : Nat) (locValid : Bool)
    (lat lng : ℚ) (tid : Nat) :
    List TeacherAttendance → TMark × List TeacherAttendance
  | [] =>
    if locValid then
      (.checkedIn, [⟨tid, today, some now, none, lat, lng, true, "present"⟩])
    else (.locationRejected, [])
  | a :: rest =>
    if a.teacher_id == tid && a.date == today then
      match a.check_out with
      | none => (.checkedOut, { a with check_out := some now } :: rest)
      | some _ => (.alreadyCheckedOut, a :: rest)
    else
      match markTeacherAttendance today now locValid lat lng tid rest with
      | (m, rest') => (m, a :: rest')

/-- A teacher-attendance table holding one checked-in, not-yet-checked-out
record for teacher 1 on 2024-01-10. -/
def c7db : List TeacherAttendance :=
  [⟨1, ⟨2024, 1, 10⟩, some 540, none, 17, 80, true, "present"⟩]

/-- C7 counterexample: with a check-in and no check-out on record, the next
same-day call is NOT rejected — it performs the check-out and mutates the
record, contradicting "rejected with a ConflictError leaving the existing
TeacherAttendance record unchanged". -/
theorem C7_second_call_not_rejected_counterexample :
    (markTeacherAttendance ⟨2024, 1, 10⟩ 1020 true 17 80 1 c7db).1 = TMark.checkedOut
    ∧ (markTeacherAttendance ⟨2024, 1, 10⟩ 1020 true 17 80 1 c7db).2 ≠ c7db := by
  constructor
  · rfl
  · decide

/-- C7 (amended): for a teacher who has checked in today and not yet checked
out, the next mark-attendance call performs the check-out (it is not
rejected), updating the existing row in place — no second row for
(teacher, today) is created — and every further call that day is rejected
with "Already checked out today", leaving the table unchanged. -/
theorem C7_checkout_once_then_rejected
    (db : List TeacherAttendance) (tid : Nat) (today : Date)
    (now now' : Nat) (lv lv' : Bool) (lat lng lat' lng' : ℚ)
    (a : TeacherAttendance)
    (hfind : findTA db tid today = some a)
    (hout : a.check_out = none) :
    (markTeacherAttendance today now lv lat lng tid db).1 = TMark.checkedOut
    ∧ findTA (markTeacherAttendance today now lv lat lng tid db).2 tid today =
        some { a with check_out := some now }
    ∧ (markTeacherAttendance today now lv lat lng tid db).2.length = db.length
    ∧ markTeacherAttendance today now' lv' lat' lng' tid
        (markTeacherAttendance today now lv lat lng tid db).2 =
        (TMark.alreadyCheckedOut, (markTeacherAttendance today now lv lat lng tid db).2) := by
  induction db with
  | nil => simp [findTA] at hfind
  | cons a₀ rest ih =>
    by_cases h₀ : (a₀.teacher_id == tid && a₀.date == today) = true
    · have ha : a₀ = a := by
        have hthis := hfind
        unfold findTA at hthis
        rw [@List.find?_cons_of_pos _ (fun x => x.teacher_id == tid && x.date == today)
          a₀ rest h₀, Option.some_inj] at hthis
        exact hthis
      subst ha
      have hmark : markTeacherAttendance today now lv lat lng tid (a₀ :: rest) =
          (TMark.checkedOut, { a₀ with check_out := some now } :: rest) := by
        simp only [markTeacherAttendance, h₀, if_true, hout]
      refine ⟨by rw [hmark], ?_, by rw [hmark]; rfl, ?_⟩
      · rw [hmark]
        show findTA ({ a₀ with check_out := some now } :: rest) tid today = _
        unfold findTA
        exact @List.find?_cons_of_pos _ (fun x => x.teacher_id == tid && x.date == today)
          { a₀ with check_out := some now } rest h₀
      · rw [hmark]
        show markTeacherAttendance today now' lv' lat' lng' tid
            ({ a₀ with check_out := some now } :: rest) = _
        simp only [markTeacherAttendance, h₀, if_true]
    · have hfind' : findTA rest tid today = some a := by
        have hthis := hfind
        unfold findTA at hthis ⊢
        rwa [@List.find?_cons_of_neg _ (fun x => x.teacher_id == tid && x.date == today)
          a₀ rest h₀] at hthis
      obtain ⟨ih1, ih2, ih3, ih4⟩ := ih hfind'
      have hmark : markTeacherAttendance today now lv lat lng tid (a₀ :: rest) =
          ((markTeacherAttendance today now lv lat lng tid rest).1,
            a₀ :: (markTeacherAttendance today now lv lat lng tid rest).2) := by
        simp only [markTeacherAttendance, h₀, Bool.false_eq_true, if_false]
      refine ⟨by rw [hmark]; exact ih1, ?_, by rw [hmark]; simp [ih3], ?_⟩
      · rw [hmark]
        show findTA (a₀ :: (markTeacherAttendance today now lv lat lng tid rest).2) tid today = _
        unfold findTA
        rw [@List.find?_cons_of_neg _ (fun x => x.teacher_id == tid && x.date == today)
          a₀ (markTeacherAttendance today now lv lat lng tid rest).2 h₀]
        exact ih2
      · rw [hmark]
        show markTeacherAttendance today now' lv' lat' lng' tid
            (a₀ :: (markTeacherAttendance today now lv lat lng tid rest).2) = _
        simp only [markTeacherAttendance, h₀, Bool.false_eq_true, if_false, ih4]

/-- Witness for C7 (amended) at the concrete one-record table. -/
theorem C7_checkout_once_then_rejected_witness :
    findTA c7db 1 ⟨2024, 1, 10⟩ =
      some ⟨1, ⟨2024, 1, 10⟩, some 540, none, 17, 80, true, "present"⟩
    ∧ (markTeacherAttendance ⟨2024, 1, 10⟩ 1020 true 17 80 1 c7db).1 = TMark.checkedOut
    ∧ markTeacherAttendance ⟨2024, 1, 10⟩ 1300 true 17 80 1
        (markTeacherAttendance ⟨2024, 1, 10⟩ 1020 true 17 80 1 c7db).2 =
        (TMark.alreadyCheckedOut, (markTeacherAttendance ⟨2024, 1, 10⟩ 1020 true 17 80 1 c7db).2) := by
  have h := C7_checkout_once_then_rejected c7db 1 ⟨2024, 1, 10⟩ 1020 1300 true true 17 80 17 80
    ⟨1, ⟨2024, 1, 10⟩, some 540, none, 17, 80, true, "present"⟩ (by rfl) (by rfl)
  exact ⟨by rfl, h.1, h.2.2.2⟩

/-- The relational store as seen by the lifecycle operations. -/
structure DB where
  user_emails : List String
  students : List Student
  attendance : List Attendance
  teacher_attendance : List TeacherAttendance
  stopped : List StoppedSemester
  history : List SemesterHistory
  logs : List AdminLog
deriving DecidableEq, Repr

/-- The SemesterHistory row written for one student inside the stop loop
(`app.py` lines 1360–1375): its totals, presents and overall percentage are
the outputs of `get_comprehensive_attendance` over the student's default
range, and its end date is the stop date. -/
def mkHistory (today : Date) (now adminId : Nat) (atts : List Attendance)
    (s : Student) : SemesterHistory :=
  ⟨s.id, s.current_semester, s.sectionName, s.semester_start_date, today,
   (getComprehensiveAttendance today atts s none none).theory_total,
   (getComprehensiveAttendance today atts s none none).theory_present,
   (getComprehensiveAttendance today atts s none none).practical_total,
   (getComprehensiveAttendance today atts s none none).practical_present,
   (getComprehensiveAttendance today atts s none none).overall_percentage,
   adminId, now⟩

/-- The student filter of the stop loop:
`Student.query.filter_by(branch=…, current_semester=…, is_semester_active=True)`. -/
def stopTargets (branch : String) (semester : Nat) (s : Student) : Bool :=
  s.branch == branch && s.current_semester == semester && s.is_semester_active

/-- The write set of `admin_stop_semester`'s try-block as applied by
`db.session.commit()`: one new active stop record, one history row per
targeted student, the `is_semester_active := false` flip on each targeted
student, and one admin-log entry. -/
def commitStop (today : Date) (now stopId adminId : Nat) (branch : String)
    (semester : Nat) (db : DB) : DB :=
  { db with
    stopped := db.stopped ++ [⟨stopId, branch, semester, adminId, today, true⟩],
    history := db.history ++
      (db.students.filter (stopTargets branch semester)).map
        (mkHistory today now adminId db.attendance),
    students := db.students.map (fun s =>
      if stopTargets branch semester s then { s with is_semester_active := false } else s),
    logs := db.logs ++
      [⟨adminId, "Stopped semester " ++ toString semester ++ " for branch " ++ branch⟩] }

/-- `admin_stop_semester` (`app.py` lines 1328–1390), exception-free run:
if the pair already has an active stop record the request is refused
("already stopped") and nothing changes; otherwise the whole write set
commits. -/
def adminStopSemester (today : Date) (now stopId adminId : Nat) (branch : String)
    (semester : Nat) (db : DB) : DB :=
  if is_semester_stopped db.stopped branch semester then db
  else commitStop today now stopId adminId branch semester db

/-- Transactional model of `admin_stop_semester` (`app.py` lines
1341–1395): all writes of the try-block stay pending in the session until
the single `db.session.commit()`. `failAt = some i` injects an exception
while the loop processes the i-th targeted student (or at the final
log/commit step when `i` equals the student count); the except-branch then
runs `db.session.rollback()`, which discards every pending write. Returns
(an error was flashed, the resulting store). -/
def adminStopSemesterTx (failAt : Option Nat) (today : Date)
    (now stopId adminId : Nat) (branch : String) (semester : Nat) (db : DB) :
    Bool × DB :=
  if is_semester_stopped db.stopped branch semester then (false, db)
  else
    match failAt with
    | some i =>
      if i ≤ (db.students.filter (stopTargets branch semester)).length then (true, db)
      else (false, commitStop today now stopId adminId branch semester db)
    | none => (false, commitStop today now stopId adminId branch semester db)

/-- C4: stopping a pair with no active stop record creates one active stop
record and, for every active student of that branch and semester, writes one
history row whose totals, presents and overall percentage are the
aggregation engine's results with end_date equal to the stop date, then
deactivates that student. -/
theorem C4_stop_semester_archives_students (today : Date)
    (now stopId adminId : Nat) (branch : String) (semester : Nat) (db : DB)
    (hns : is_semester_stopped db.stopped branch semester = false) :
    (⟨stopId, branch, semester, adminId, today, true⟩ : StoppedSemester) ∈
      (adminStopSemester today now stopId adminId branch semester db).stopped
    ∧ (∀ s ∈ db.students, s.branch = branch → s.current_semester = semester →
        s.is_semester_active = true →
        mkHistory today now adminId db.attendance s ∈
          (adminStopSemester today now stopId adminId branch semester db).history
        ∧ ({ s with is_semester_active := false } : Student) ∈
            (adminStopSemester today now stopId adminId branch semester db).students)
    ∧ (adminStopSemester today now stopId adminId branch semester db).history.length =
        db.history.length + (db.students.filter (stopTargets branch semester)).length
    ∧ (∀ s : Student,
        (mkHistory today now adminId db.attendance s).total_theory_classes =
          (getComprehensiveAttendance today db.attendance s none none).theory_total
        ∧ (mkHistory today now adminId db.attendance s).present_theory_classes =
            (getComprehensiveAttendance today db.attendance s none none).theory_present
        ∧ (mkHistory today now adminId db.attendance s).total_lab_classes =
            (getComprehensiveAttendance today db.attendance s none none).practical_total
        ∧ (mkHistory today now adminId db.attendance s).present_lab_classes =
            (getComprehensiveAttendance today db.attendance s none none).practical_present
        ∧ (mkHistory today now adminId db.attendance s).attendance_percentage =
            (getComprehensiveAttendance today db.attendance s none none).overall_percentage
        ∧ (mkHistory today now adminId db.attendance s).end_date = today) := by
  have hop : adminStopSemester today now stopId adminId branch semester db =
      commitStop today now stopId adminId branch semester db := by
    unfold adminStopSemester
    rw [hns]
    rfl
  rw [hop]
  refine ⟨?_, ?_, ?_, ?_⟩
  · simp [commitStop]
  · intro s hs hb hsem hact
    have hst : stopTargets branch semester s = true := by
      simp [stopTargets, hb, hsem, hact]
    constructor
    · simp only [commitStop, List.mem_append]
      right
      exact List.mem_map_of_mem _ (List.mem_filter.mpr ⟨hs, hst⟩)
    · simp only [commitStop, List.mem_map]
      exact ⟨s, hs, by rw [hst]; simp⟩
  · simp [commitStop]
  · intro s
    exact ⟨rfl, rfl, rfl, rfl, rfl, rfl⟩

/-- A one-student store for the lifecycle witnesses. -/
def lifecycleDB : DB :=
  ⟨["s@x.edu"], [scenarioStudent], scenarioAtts, [], [], [], []⟩

/-- Witness for C4 on the one-student store. -/
theorem C4_stop_semester_archives_students_witness :
    is_semester_stopped lifecycleDB.stopped "CSE" 3 = false
    ∧ mkHistory ⟨2024, 6, 1⟩ 77 9 lifecycleDB.attendance scenarioStudent ∈
        (adminStopSemester ⟨2024, 6, 1⟩ 77 5 9 "CSE" 3 lifecycleDB).history
    ∧ ({ scenarioStudent with is_semester_active := false } : Student) ∈
        (adminStopSemester ⟨2024, 6, 1⟩ 77 5 9 "CSE" 3 lifecycleDB).students := by
  have h := C4_stop_semester_archives_students ⟨2024, 6, 1⟩ 77 5 9 "CSE" 3 lifecycleDB
    (by decide)
  have hmem := h.2.1 scenarioStudent (by decide) rfl rfl rfl
  exact ⟨by decide, hmem.1, hmem.2⟩

/-- C5: the branch-wide stop is all-or-nothing — for any injected failure
point, the run either leaves the store exactly as it was (no stop record,
no history row, no flag change, no log entry) or produces the full write
set; whenever the failure fires, every table is unchanged. -/
theorem C5_stop_transaction_all_or_nothing (failAt : Option Nat) (today : Date)
    (now stopId adminId : Nat) (branch : String) (semester : Nat) (db : DB)
    (hns : is_semester_stopped db.stopped branch semester = false) :
    ((adminStopSemesterTx failAt today now stopId adminId branch semester db).2 = db
      ∨ (adminStopSemesterTx failAt today now stopId adminId branch semester db).2 =
          commitStop today now stopId adminId branch semester db)
    ∧ ((adminStopSemesterTx failAt today now stopId adminId branch semester db).1 = true →
        (adminStopSemesterTx failAt today now stopId adminId branch semester db).2.stopped =
          db.stopped
        ∧ (adminStopSemesterTx failAt today now stopId adminId branch semester db).2.history =
            db.history
        ∧ (adminStopSemesterTx failAt today now stopId adminId branch semester db).2.students =
            db.students
        ∧ (adminStopSemesterTx failAt today now stopId adminId branch semester db).2.logs =
            db.logs)
    ∧ ((adminStopSemesterTx failAt today now stopId adminId branch semester db).1 = false →
        (adminStopSemesterTx failAt today now stopId adminId branch semester db).2 =
          commitStop today now stopId adminId branch semester db) := by
  cases failAt with
  | none =>
    have hop : adminStopSemesterTx none today now stopId adminId branch semester db =
        (false, commitStop today now stopId adminId branch semester db) := by
      simp [adminStopSemesterTx, hns]
    rw [hop]
    refine ⟨Or.inr rfl, ?_, fun _ => rfl⟩
    intro h
    exact absurd h (by simp)
  | some i =>
    by_cases hi : i ≤ (db.students.filter (stopTargets branch semester)).length
    · have hop : adminStopSemesterTx (some i) today now stopId adminId branch semester db =
          (true, db) := by
        simp [adminStopSemesterTx, hns, hi]
      rw [hop]
      refine ⟨Or.inl rfl, fun _ => ⟨rfl, rfl, rfl, rfl⟩, ?_⟩
      intro h
      exact absurd h (by simp)
    · have hop : adminStopSemesterTx (some i) today now stopId adminId branch semester db =
          (false, commitStop today now stopId adminId branch semester db) := by
        simp [adminStopSemesterTx, hns, hi]
      rw [hop]
      refine ⟨Or.inr rfl, ?_, fun _ => rfl⟩
      intro h
      exact absurd h (by simp)

/-- Witness for C5: a failure while archiving the only targeted student
rolls the one-student store back unchanged. -/
theorem C5_stop_transaction_all_or_nothing_witness :
    is_semester_stopped lifecycleDB.stopped "CSE" 3 = false
    ∧ (adminStopSemesterTx (some 0) ⟨2024, 6, 1⟩ 77 5 9 "CSE" 3 lifecycleDB).1 = true
    ∧ (adminStopSemesterTx (some 0) ⟨2024, 6, 1⟩ 77 5 9 "CSE" 3 lifecycleDB).2.students =
        lifecycleDB.students
    ∧ (adminStopSemesterTx (some 0) ⟨2024, 6, 1⟩ 77 5 9 "CSE" 3 lifecycleDB).2.stopped =
        lifecycleDB.stopped := by
  have h := C5_stop_transaction_all_or_nothing (some 0) ⟨2024, 6, 1⟩ 77 5 9 "CSE" 3 lifecycleDB
    (by decide)
  have hfail : (adminStopSemesterTx (some 0) ⟨2024, 6, 1⟩ 77 5 9 "CSE" 3 lifecycleDB).1 = true := by
    decide
  obtain ⟨h1, h2, h3, h4⟩ := h.2.1 hfail
  exact ⟨by decide, hfail, h3, h1⟩

/-- Outcome of a student registration attempt (`register_student`). -/
inductive RegResult where
  | emailExists
  | registerNumberExists
  | semesterClosed
  | ok
deriving DecidableEq, Repr

/-- `register_student` (`app.py` lines 718–775): reject a duplicate email,
then a duplicate register number, then a (branch, semester) with an active
stop record; otherwise create the user and the student with
`semester_start_date = today` and `is_semester_active = True`. -/
def registerStudent (today : Date) (email name regNo branch : String)
    (semester : Nat) (sec phone : String) (uid sid : Nat) (db : DB) :
    RegResult × DB :=
  if db.user_emails.contains email then (.emailExists, db)
  else if db.students.any (fun s => s.register_number == regNo) then
    (.registerNumberExists, db)
  else if is_semester_stopped db.stopped branch semester then (.semesterClosed, db)
  else
    (.ok, { db with
      user_emails := db.user_emails ++ [email],
      students := db.students ++
        [⟨sid, uid, name, regNo, branch, semester, sec, phone, today, true⟩] })

/-- In-place flip of the fetched stop record's `is_active` flag
(`stop_record.is_active = False` on the row fetched by primary key — the
first row with that id). -/
def setStopInactive (stopId : Nat) : List StoppedSemester → List StoppedSemester
  | [] => []
  | r :: rest =>
    if r.id == stopId then { r with is_active := false } :: rest
    else r :: setStopInactive stopId rest

/-- `admin_reactivate_semester` (`app.py` lines 1408–1435): fetch the stop
record by id (404 leaves the store unchanged), set only its `is_active` to
False and append an admin log; students are deliberately not touched. -/
def adminReactivateSemester (stopId adminId : Nat) (db : DB) : DB :=
  match db.stopped.find? (fun q => q.id == stopId) with
  | none => db
  | some r =>
    { db with
      stopped := setStopInactive stopId db.stopped,
      logs := db.logs ++
        [⟨adminId, "Reactivated semester " ++ toString r.semester ++ " for branch " ++
          r.branch ++ " - allowing new registrations only"⟩] }

lemma setStopInactive_spec (l : List StoppedSemester) (stopId : Nat)
    (r : StoppedSemester)
    (hfind : l.find? (fun q => q.id == stopId) = some r) :
    ∃ l1 l2, l = l1 ++ r :: l2
      ∧ setStopInactive stopId l =
          l1 ++ ({ r with is_active := false } : StoppedSemester) :: l2
      ∧ ∀ q ∈ l1, (q.id == stopId) = false := by
  induction l with
  | nil => simp at hfind
  | cons a rest ih =>
    by_cases ha : (a.id == stopId) = true
    · have har : a = r := by
        have h2 := hfind
        rw [@List.find?_cons_of_pos _ (fun q => q.id == stopId) a rest ha,
          Option.some_inj] at h2
        exact h2
      subst har
      refine ⟨[], rest, rfl, ?_, by simp⟩
      simp [setStopInactive, ha]
    · have ha' : (a.id == stopId) = false := Bool.eq_false_iff.mpr ha
      have hfind' : rest.find? (fun q => q.id == stopId) = some r := by
        have h2 := hfind
        rwa [@List.find?_cons_of_neg _ (fun q => q.id == stopId) a rest ha] at h2
      obtain ⟨l1, l2, he, hs, hl1⟩ := ih hfind'
      refine ⟨a :: l1, l2, by rw [he]; rfl, ?_, ?_⟩
      · simp only [setStopInactive, ha', Bool.false_eq_true, if_false, hs, List.cons_append]
      · intro q hq
        rcases List.mem_cons.mp hq with rfl | hq'
        · exact ha'
        · exact hl1 q hq'

lemma registerStudent_ok (today : Date) (email name regNo branch : String)
    (semester : Nat) (sec phone : String) (uid sid : Nat) (db : DB)
    (h1 : db.user_emails.contains email = false)
    (h2 : db.students.any (fun s => s.register_number == regNo) = false)
    (h3 : is_semester_stopped db.stopped branch semester = false) :
    registerStudent today email name regNo branch semester sec phone uid sid db =
      (RegResult.ok, { db with
        user_emails := db.user_emails ++ [email],
        students := db.students ++
          [⟨sid, uid, name, regNo, branch, semester, sec, phone, today, true⟩] }) := by
  unfold registerStudent
  rw [if_neg (show ¬(db.user_emails.contains email = true) by
    rw [h1]; exact Bool.false_ne_true)]
  rw [if_neg (show ¬((db.students.any fun s => s.register_number == regNo) = true) by
    rw [h2]; exact Bool.false_ne_true)]
  rw [if_neg (show ¬(is_semester_stopped db.stopped branch semester = true) by
    rw [h3]; exact Bool.false_ne_true)]

lemma registerStudent_rejects_when_stopped (today : Date)
    (email name regNo branch : String) (semester : Nat) (sec phone : String)
    (uid sid : Nat) (db : DB)
    (hstop : is_semester_stopped db.stopped branch semester = true) :
    (registerStudent today email name regNo branch semester sec phone uid sid db).1 ≠
      RegResult.ok
    ∧ (registerStudent today email name regNo branch semester sec phone uid sid db).2 = db := by
  unfold registerStudent
  by_cases h1 : db.user_emails.contains email = true
  · rw [if_pos h1]
    exact ⟨fun hco => RegResult.noConfusion hco, rfl⟩
  · rw [if_neg h1]
    by_cases h2 : (db.students.any (fun s => s.register_number == regNo)) = true
    · rw [if_pos h2]
      exact ⟨fun hco => RegResult.noConfusion hco, rfl⟩
    · rw [if_neg h2, if_pos hstop]
      exact ⟨fun hco => RegResult.noConfusion hco, rfl⟩

/-- C6: reactivating a stopped (branch, semester) flips only the stop
record's `is_active` to false — students (hence every archived student's
`is_semester_active`), attendance and history are untouched — after which a
fresh registration into that pair is accepted with
`semester_start_date = today` and `is_semester_active = true`; and any
registration is rejected, leaving the store unchanged, whenever an active
stop record for its pair exists. -/
theorem C6_reactivate_only_clears_stop_record
    (db : DB) (stopId adminId : Nat) (r : StoppedSemester)
    (hfind : db.stopped.find? (fun q => q.id == stopId) = some r)
    (hractive : r.is_active = true)
    (hcount : db.stopped.countP (fun q =>
        q.branch == r.branch && q.semester == r.semester && q.is_active) = 1)
    (today : Date) (email name regNo sec phone : String) (uid sid : Nat)
    (hemail : db.user_emails.contains email = false)
    (hreg : db.students.any (fun s => s.register_number == regNo) = false) :
    (adminReactivateSemester stopId adminId db).students = db.students
    ∧ (adminReactivateSemester stopId adminId db).attendance = db.attendance
    ∧ (adminReactivateSemester stopId adminId db).history = db.history
    ∧ ({ r with is_active := false } : StoppedSemester) ∈
        (adminReactivateSemester stopId adminId db).stopped
    ∧ (adminReactivateSemester stopId adminId db).stopped.length = db.stopped.length
    ∧ (∀ q ∈ db.stopped, (q.id == stopId) = false →
        q ∈ (adminReactivateSemester stopId adminId db).stopped)
    ∧ is_semester_stopped (adminReactivateSemester stopId adminId db).stopped
        r.branch r.semester = false
    ∧ (registerStudent today email name regNo r.branch r.semester sec phone uid sid
        (adminReactivateSemester stopId adminId db)).1 = RegResult.ok
    ∧ (registerStudent today email name regNo r.branch r.semester sec phone uid sid
        (adminReactivateSemester stopId adminId db)).2.students =
        db.students ++ [⟨sid, uid, name, regNo, r.branch, r.semester, sec, phone, today, true⟩]
    ∧ (∀ (db₀ : DB) (email' name' regNo' branch' : String) (semester' : Nat)
        (sec' phone' : String) (uid' sid' : Nat),
        is_semester_stopped db₀.stopped branch' semester' = true →
        (registerStudent today email' name' regNo' branch' semester' sec' phone' uid' sid'
          db₀).1 ≠ RegResult.ok
        ∧ (registerStudent today email' name' regNo' branch' semester' sec' phone' uid' sid'
            db₀).2 = db₀) := by
  have hre : adminReactivateSemester stopId adminId db =
      { db with
        stopped := setStopInactive stopId db.stopped,
        logs := db.logs ++
          [⟨adminId, "Reactivated semester " ++ toString r.semester ++ " for branch " ++
            r.branch ++ " - allowing new registrations only"⟩] } := by
    unfold adminReactivateSemester
    rw [hfind]
  obtain ⟨l1, l2, he, hs, hl1⟩ := setStopInactive_spec db.stopped stopId r hfind
  have hrid : (r.id == stopId) = true := by
    have h2 := List.find?_some hfind
    exact h2
  have hpredr : (r.branch == r.branch && r.semester == r.semester && r.is_active) = true := by
    simp [hractive]
  have hcount' : l1.countP (fun q =>
        q.branch == r.branch && q.semester == r.semester && q.is_active) = 0
      ∧ l2.countP (fun q =>
        q.branch == r.branch && q.semester == r.semester && q.is_active) = 0 := by
    have h2 := hcount
    rw [he, List.countP_append, List.countP_cons, hpredr] at h2
    simp only [if_true] at h2
    constructor <;> omega
  have hnostop : is_semester_stopped (setStopInactive stopId db.stopped)
      r.branch r.semester = false := by
    unfold is_semester_stopped
    rw [hs]
    have hall : ∀ q ∈ l1 ++ ({ r with is_active := false } : StoppedSemester) :: l2,
        ¬((q.branch == r.branch && q.semester == r.semester && q.is_active) = true) := by
      intro q hq
      rcases List.mem_append.mp hq with hq1 | hq2
      · exact (List.countP_eq_zero.mp hcount'.1) q hq1
      · rcases List.mem_cons.mp hq2 with rfl | hq3
        · simp
        · exact (List.countP_eq_zero.mp hcount'.2) q hq3
    rw [List.find?_eq_none.mpr hall]
    rfl
  have h3' : is_semester_stopped (adminReactivateSemester stopId adminId db).stopped
      r.branch r.semester = false := by
    rw [hre]
    exact hnostop
  have h1' : (adminReactivateSemester stopId adminId db).user_emails.contains email = false := by
    rw [hre]
    exact hemail
  have h2' : (adminReactivateSemester stopId adminId db).students.any
      (fun s => s.register_number == regNo) = false := by
    rw [hre]
    exact hreg
  have hro := registerStudent_ok today email name regNo r.branch r.semester sec phone uid sid
    (adminReactivateSemester stopId adminId db) h1' h2' h3'
  refine ⟨by rw [hre], by rw [hre], by rw [hre], ?_, ?_, ?_, h3', ?_, ?_, ?_⟩
  · rw [hre]
    show ({ r with is_active := false } : StoppedSemester) ∈ setStopInactive stopId db.stopped
    rw [hs]
    exact List.mem_append_right _ (List.mem_cons_self _ _)
  · rw [hre]
    show (setStopInactive stopId db.stopped).length = db.stopped.length
    rw [hs, he]
    simp
  · intro q hq hqid
    rw [hre]
    show q ∈ setStopInactive stopId db.stopped
    rw [hs]
    rw [he] at hq
    rcases List.mem_append.mp hq with hq1 | hq2
    · exact List.mem_append_left _ hq1
    · rcases List.mem_cons.mp hq2 with rfl | hq3
      · rw [hqid] at hrid
        exact absurd hrid Bool.false_ne_true
      · exact List.mem_append_right _ (List.mem_cons_of_mem _ hq3)
  · rw [hro]
  · rw [hro]
    show (adminReactivateSemester stopId adminId db).students ++ _ = _
    rw [hre]
  · intro db₀ email' name' regNo' branch' semester' sec' phone' uid' sid' hstop
    exact registerStudent_rejects_when_stopped today email' name' regNo' branch' semester'
      sec' phone' uid' sid' db₀ hstop

/-- A store whose (CSE, 3) pair is stopped, holding one archived student. -/
def stoppedDB : DB :=
  ⟨["s@x.edu"], [{ scenarioStudent with is_semester_active := false }], scenarioAtts, [],
   [⟨5, "CSE", 3, 9, ⟨2024, 6, 1⟩, true⟩], [], []⟩

/-- Witness for C6 on the concrete stopped store. -/
theorem C6_reactivate_only_clears_stop_record_witness :
    (adminReactivateSemester 5 9 stoppedDB).students = stoppedDB.students
    ∧ (registerStudent ⟨2024, 6, 2⟩ "t@x.edu" "T" "24B81A0502" "CSE" 3 "A" "8"
        7 2 (adminReactivateSemester 5 9 stoppedDB)).1 = RegResult.ok
    ∧ (registerStudent ⟨2024, 6, 2⟩ "t@x.edu" "T" "24B81A0502" "CSE" 3 "A" "8"
        7 2 (adminReactivateSemester 5 9 stoppedDB)).2.students =
        stoppedDB.students ++ [⟨2, 7, "T", "24B81A0502", "CSE", 3, "A", "8", ⟨2024, 6, 2⟩, true⟩] := by
  have h := C6_reactivate_only_clears_stop_record stoppedDB 5 9
    ⟨5, "CSE", 3, 9, ⟨2024, 6, 1⟩, true⟩ (by decide) rfl (by decide)
    ⟨2024, 6, 2⟩ "t@x.edu" "T" "24B81A0502" "A" "8" 7 2 (by decide) (by decide)
  exact ⟨h.1, h.2.2.2.2.2.2.2.1, h.2.2.2.2.2.2.2.2.1⟩

/-- A JSON-ish value arriving in a coordinate field of the mark-attendance
request body. -/
inductive PyVal where
  | vnone
  | vnum (x : ℚ)
  | vstr (s : String)
deriving DecidableEq, Repr

/-- Python truthiness, as used by `if not latitude or not longitude` in
`verify_location`: `None`, the number 0 and the empty string are falsy. -/
def falsy : PyVal → Bool
  | .vnone => true
  | .vnum x => x == 0
  | .vstr s => s == ""

/-- Every character is a decimal digit. -/
def allDigits (cs : List Char) : Bool := cs.all (fun c => c.isDigit)

/-- Value of a digit string. -/
def digitsToNat (cs : List Char) : Nat :=
  cs.foldl (fun n c => 10 * n + (c.toNat - 48)) 0

/-- `float(s)` on a plain decimal string: optional sign, digits with an
optional fractional part. The exotic CPython forms (surrounding whitespace,
exponents, underscores, `inf`, `nan`) are not modelled; the claims only
exercise plainly numeric and plainly non-numeric strings. -/
def strFloat? (s : String) : Option ℚ :=
  let body : Int × List Char :=
    match s.data with
    | '-' :: rest => (-1, rest)
    | '+' :: rest => (1, rest)
    | cs => (1, cs)
  let ip := body.2.takeWhile (fun c => !(c == '.'))
  let rest := body.2.dropWhile (fun c => !(c == '.'))
  match rest with
  | [] =>
    if 0 < ip.length && allDigits ip then some ((body.1 : ℚ) * (digitsToNat ip : ℚ))
    else none
  | _ :: frac =>
    if (0 < ip.length || 0 < frac.length) && allDigits ip && allDigits frac then
      some ((body.1 : ℚ) *
        ((digitsToNat ip : ℚ) + (digitsToNat frac : ℚ) / ((10 : ℚ) ^ frac.length)))
    else none

/-- `float(value)` over the request value: numbers pass through, strings are
parsed, `None` raises `TypeError` (modelled as `none`). -/
def pyFloat : PyVal → Option ℚ
  | .vnone => none
  | .vnum x => some x
  | .vstr s => strFloat? s

open Classical in
/-- `math.atan2 y x` as a function on reals (piecewise two-argument
arctangent; `atan2 0 0 = 0` as in CPython). -/
noncomputable def arctan2 (y x : ℝ) : ℝ :=
  if 0 < x then Real.arctan (y / x)
  else if x < 0 then
    (if 0 ≤ y then Real.arctan (y / x) + Real.pi else Real.arctan (y / x) - Real.pi)
  else
    (if 0 < y then Real.pi / 2 else if y < 0 then -(Real.pi / 2) else 0)

/-- The intermediate `a` of `calculate_distance`:
`sin(dlat/2)**2 + cos(lat1)*cos(lat2)*sin(dlng/2)**2` after
degree-to-radian conversion of all four inputs. -/
noncomputable def haversineA (lat1 lng1 lat2 lng2 : ℝ) : ℝ :=
  Real.sin ((lat2 * Real.pi / 180 - lat1 * Real.pi / 180) / 2) ^ 2 +
    Real.cos (lat1 * Real.pi / 180) * Real.cos (lat2 * Real.pi / 180) *
      Real.sin ((lng2 * Real.pi / 180 - lng1 * Real.pi / 180) / 2) ^ 2

open Classical in
/-- `calculate_distance(lat1, lng1, lat2, lng2)` (`app.py` lines 312–320):
degrees to radians, haversine with Earth radius 6371 km. `math.sqrt` raises
`ValueError` on a negative argument (the caller catches it), modelled as
`none`. -/
noncomputable def calculate_distance (lat1 lng1 lat2 lng2 : ℝ) : Option ℝ :=
  let a := haversineA lat1 lng1 lat2 lng2
  if a < 0 ∨ 1 - a < 0 then none
  else some (6371 * (2 * arctan2 (Real.sqrt a) (Real.sqrt (1 - a))))

/-- Default geofence reference point and radius (`COLLEGE_LAT`,
`COLLEGE_LNG`, `ALLOWED_RADIUS_KM`, `app.py` lines 72–74). -/
noncomputable def COLLEGE_LAT : ℝ := 17.1

/-- Default reference longitude. -/
noncomputable def COLLEGE_LNG : ℝ := 80.6

/-- Default allowed radius in km. -/
noncomputable def ALLOWED_RADIUS_KM : ℝ := 0.5

open Classical in
/-- `verify_location(latitude, longitude)` (`app.py` lines 322–329) over a
configured reference point and radius: falsy inputs fail closed; `float()`
failures and `math` domain errors are caught by
`except (ValueError, TypeError)` and fail closed; otherwise the haversine
distance is compared against the radius. -/
noncomputable def verify_location (refLat refLng radius : ℝ)
    (latitude longitude : PyVal) : Bool :=
  if falsy latitude || falsy longitude then false
  else
    match pyFloat latitude, pyFloat longitude with
    | some la, some ln =>
      match calculate_distance (la : ℝ) (ln : ℝ) refLat refLng with
      | some d => decide (d ≤ radius)
      | none => false
    | _, _ => false

lemma arctan2_le_pi_div_two (y x : ℝ) (hx : 0 ≤ x) :
    arctan2 y x ≤ Real.pi / 2 := by
  unfold arctan2
  split_ifs with h1 h2 h3 h4 h5
  · exact (Real.arctan_lt_pi_div_two _).le
  · linarith
  · linarith
  · exact le_refl _
  · linarith [Real.pi_pos]
  · linarith [Real.pi_pos]

lemma arctan2_zero_one : arctan2 0 1 = 0 := by
  unfold arctan2
  rw [if_pos one_pos, zero_div, Real.arctan_zero]

lemma haversineA_self (lat lng : ℝ) : haversineA lat lng lat lng = 0 := by
  unfold haversineA
  simp [sub_self, Real.sin_zero]

lemma calculate_distance_self (lat lng : ℝ) :
    calculate_distance lat lng lat lng = some 0 := by
  simp [calculate_distance, haversineA_self, Real.sqrt_zero, Real.sqrt_one, arctan2_zero_one]

lemma calculate_distance_bounded (lat1 lng1 lat2 lng2 : ℝ)
    (h0 : 0 ≤ haversineA lat1 lng1 lat2 lng2)
    (h1 : haversineA lat1 lng1 lat2 lng2 ≤ 1) :
    ∃ d, calculate_distance lat1 lng1 lat2 lng2 = some d ∧ d ≤ 6371 * Real.pi := by
  unfold calculate_distance
  rw [if_neg (by push_neg; exact ⟨h0, by linarith⟩)]
  refine ⟨_, rfl, ?_⟩
  have hb := arctan2_le_pi_div_two
    (Real.sqrt (haversineA lat1 lng1 lat2 lng2))
    (Real.sqrt (1 - haversineA lat1 lng1 lat2 lng2))
    (Real.sqrt_nonneg _)
  linarith [hb]

/-- C9: because the presence check uses Python truthiness, a coordinate
equal to 0 (or the empty string) makes `verify_location` return false
regardless of the reference point, the radius and the actual distance — in
particular for the numeric input (0, 80.6), whose distance from the default
reference point is within a configured radius of 20100 km. -/
theorem C9_zero_coordinate_fails_closed (refLat refLng radius : ℝ) (v : PyVal) :
    verify_location refLat refLng radius (.vnum 0) v = false
    ∧ verify_location refLat refLng radius v (.vnum 0) = false
    ∧ verify_location refLat refLng radius (.vstr "") v = false
    ∧ (∃ d : ℝ, calculate_distance ((0 : ℚ) : ℝ) (((403 : ℚ) / 5 : ℚ) : ℝ)
        COLLEGE_LAT COLLEGE_LNG = some d ∧ d ≤ 20100)
    ∧ verify_location COLLEGE_LAT COLLEGE_LNG 20100 (.vnum 0) (.vnum (403 / 5)) = false := by
  have hh : haversineA 0 80.6 COLLEGE_LAT COLLEGE_LNG =
      Real.sin ((17.1 * Real.pi / 180 - 0 * Real.pi / 180) / 2) ^ 2 := by
    unfold haversineA COLLEGE_LAT COLLEGE_LNG
    have hz : (80.6 : ℝ) * Real.pi / 180 - 80.6 * Real.pi / 180 = 0 := sub_self _
    rw [hz]
    simp [Real.sin_zero]
  have h0 : 0 ≤ haversineA 0 80.6 COLLEGE_LAT COLLEGE_LNG := by
    rw [hh]; positivity
  have h1 : haversineA 0 80.6 COLLEGE_LAT COLLEGE_LNG ≤ 1 := by
    rw [hh]; exact Real.sin_sq_le_one _
  obtain ⟨d, hd, hdle⟩ := calculate_distance_bounded 0 80.6 COLLEGE_LAT COLLEGE_LNG h0 h1
  have hc0 : ((0 : ℚ) : ℝ) = 0 := by norm_num
  have hc1 : (((403 : ℚ) / 5 : ℚ) : ℝ) = 80.6 := by push_cast; norm_num
  refine ⟨?_, ?_, ?_, ⟨d, by rw [hc0, hc1]; exact hd,
    by linarith [Real.pi_lt_d2]⟩, ?_⟩
  · simp [verify_location, falsy]
  · simp [verify_location, falsy]
  · simp [verify_location, falsy]
  · simp [verify_location, falsy]

/-- C8: `verify_location` returns false whenever a coordinate is missing or
falsy, whenever `float()` fails on it, and whenever the haversine distance
from the configured reference point exceeds the configured radius; when both
coordinates are numeric and truthy and the distance is within the radius it
returns true — in particular, the default reference point itself verifies
for every positive radius. -/
theorem C8_verify_location_contract
    (refLat refLng radius : ℝ) (lat lng : PyVal) :
    (falsy lat = true ∨ falsy lng = true →
      verify_location refLat refLng radius lat lng = false)
    ∧ (pyFloat lat = none → verify_location refLat refLng radius lat lng = false)
    ∧ (pyFloat lng = none → verify_location refLat refLng radius lat lng = false)
    ∧ (∀ (la ln : ℚ) (d : ℝ), pyFloat lat = some la → pyFloat lng = some ln →
        calculate_distance (la : ℝ) (ln : ℝ) refLat refLng = some d → radius < d →
        verify_location refLat refLng radius lat lng = false)
    ∧ (∀ (la ln : ℚ) (d : ℝ), falsy lat = false → falsy lng = false →
        pyFloat lat = some la → pyFloat lng = some ln →
        calculate_distance (la : ℝ) (ln : ℝ) refLat refLng = some d → d ≤ radius →
        verify_location refLat refLng radius lat lng = true)
    ∧ (0 < radius →
        verify_location COLLEGE_LAT COLLEGE_LNG radius
          (.vnum (171 / 10)) (.vnum (403 / 5)) = true) := by
  refine ⟨?_, ?_, ?_, ?_, ?_, ?_⟩
  · intro h
    rcases h with h | h <;> simp [verify_location, h]
  · intro h
    by_cases hf : (falsy lat || falsy lng) = true
    · simp [verify_location, hf]
    · cases hx : pyFloat lng <;> simp [verify_location, hf, h, hx]
  · intro h
    by_cases hf : (falsy lat || falsy lng) = true
    · simp [verify_location, hf]
    · cases hx : pyFloat lat <;> simp [verify_location, hf, h, hx]
  · intro la ln d hla hln hd hrd
    by_cases hf : (falsy lat || falsy lng) = true
    · simp [verify_location, hf]
    · simp only [verify_location, hf, Bool.false_eq_true, if_false, hla, hln, hd]
      simp only [decide_eq_false_iff_not, not_le]
      exact hrd
  · intro la ln d hfa hfb hla hln hd hdle
    simp only [verify_location, hfa, hfb, Bool.or_self, Bool.false_eq_true, if_false,
      hla, hln, hd]
    simp only [decide_eq_true_eq]
    exact hdle
  · intro hr
    have hf1 : falsy (PyVal.vnum (171 / 10)) = false := by
      simp only [falsy, beq_eq_false_iff_ne, ne_eq]
      norm_num
    have hf2 : falsy (PyVal.vnum (403 / 5)) = false := by
      simp only [falsy, beq_eq_false_iff_ne, ne_eq]
      norm_num
    have e1 : (((171 : ℚ) / 10 : ℚ) : ℝ) = COLLEGE_LAT := by
      unfold COLLEGE_LAT
      push_cast
      norm_num
    have e2 : (((403 : ℚ) / 5 : ℚ) : ℝ) = COLLEGE_LNG := by
      unfold COLLEGE_LNG
      push_cast
      norm_num
    have hd : calculate_distance (((171 : ℚ) / 10 : ℚ) : ℝ) (((403 : ℚ) / 5 : ℚ) : ℝ)
        COLLEGE_LAT COLLEGE_LNG = some 0 := by
      rw [e1, e2]
      exact calculate_distance_self _ _
    simp only [verify_location, hf1, hf2, Bool.or_self, Bool.false_eq_true, if_false,
      pyFloat, hd]
    simp only [decide_eq_true_eq]
    exact hr.le

/-- Witness for C8: a missing coordinate and a non-numeric coordinate fail
closed; the reference point itself verifies with radius 1 km. -/
theorem C8_verify_location_contract_witness :
    verify_location 1 2 (1 / 2) PyVal.vnone (.vnum 1) = false
    ∧ verify_location 1 2 (1 / 2) (.vstr "abc") (.vnum 1) = false
    ∧ verify_location COLLEGE_LAT COLLEGE_LNG 1 (.vnum (171 / 10)) (.vnum (403 / 5)) = true := by
  refine ⟨?_, ?_, ?_⟩
  · exact (C8_verify_location_contract 1 2 (1 / 2) PyVal.vnone (.vnum 1)).1 (Or.inl rfl)
  · exact (C8_verify_location_contract 1 2 (1 / 2) (.vstr "abc") (.vnum 1)).2.1 (by rfl)
  · exact (C8_verify_location_contract COLLEGE_LAT COLLEGE_LNG 1 (.vnum (171 / 10))
      (.vnum (403 / 5))).2.2.2.2.2 one_pos

/-- Witness for C9: latitude 0 is rejected outright under an arbitrary
configuration. -/
theorem C9_zero_coordinate_fails_closed_witness :
    verify_location 1 2 (1 / 2) (.vnum 0) (.vnum 1) = false :=
  (C9_zero_coordinate_fails_closed 1 2 (1 / 2) (.vnum 1)).1
